import Mathlib

/-!
Shallow embedding of the payment reconciliation core of the
`inspired-intelligence-academy` repository:

* `supabase/functions/create-checkout/index.ts` — checkout session builder
  (the multi-product variant, cited by the claims);
* `supabase/functions/stripe-webhook/index.ts` and the catalog-backed webhook
  variant concatenated into `supabase/functions/sync-products/index.ts`
  (lines 147-694) — webhook reconciler;
* `supabase/functions/sync-products/index.ts` (lines 21-145) — manual bulk
  product sync.

Database tables (products / payments / purchases / profiles) are lists of
rows; Supabase query combinators are modelled by their PostgREST semantics
(`.single()` / `.maybeSingle()` return a row only when exactly one row
matches, otherwise data is null; `.update().eq()` maps over all matching
rows; inserts append).  External services (Stripe, the JSON parser, HMAC
signature computation) are oracles supplied in environment records.
Monetary amounts are rationals (JS numbers used by the code are decimal
literals and sums/divisions of them); timestamps (`created_at`/`updated_at`)
are omitted since no claim mentions them.
-/

namespace IIA

/-- JS truthiness for an optional string: `undefined`, `null` and `""` are
falsy. -/
def strTruthy : Option String → Bool
  | some s => s ≠ ""
  | none => false

/-- JS `a || b` on optional strings (empty string is falsy). -/
def jsOrS (a b : Option String) : Option String :=
  match a with
  | some s => if s = "" then b else some s
  | none => b

/-- JS `a || d` where `d` is a string default. -/
def jsStrD (a : Option String) (d : String) : String :=
  match a with
  | some s => if s = "" then d else s
  | none => d

/-- PostgREST `.single()` / `.maybeSingle()` data: a row exactly when exactly
one row matches the filters (0 rows: null data; ≥ 2 rows: error, null data;
the handlers destructure only `data` and ignore `error`). -/
def uniqueFind {α : Type} (l : List α) (p : α → Bool) : Option α :=
  match l.filter p with
  | [x] => some x
  | _ => none

/-- JS whitespace for `String.prototype.trim`. -/
def jsWs (c : Char) : Bool :=
  c = ' ' || c = '\t' || c = '\n' || c = '\r'

/-- JS `s.trim()`. -/
def jsTrim (s : String) : String :=
  ⟨((s.data.dropWhile jsWs).reverse.dropWhile jsWs).reverse⟩

/-- Fuel-indexed splitter (structural recursion so that concrete runs
reduce): split `cs` at every occurrence of the non-empty separator. -/
def splitStrGo (sep : List Char) : Nat → List Char → List Char →
    List (List Char)
  | 0, cs, acc => [acc.reverse ++ cs]
  | fuel + 1, cs, acc =>
      match cs with
      | [] => [acc.reverse]
      | c :: rest =>
          if sep.isPrefixOf (c :: rest) then
            acc.reverse :: splitStrGo sep fuel ((c :: rest).drop sep.length) []
          else splitStrGo sep fuel rest (c :: acc)

/-- JS `s.split(sep)` for a non-empty separator. -/
def jsSplit (sep : String) (s : String) : List String :=
  (splitStrGo sep.data (s.data.length + 1) s.data []).map (fun cs => ⟨cs⟩)

/-- JS `s.includes(c)` for a single-character needle. -/
def jsIncludes (s : String) (c : Char) : Bool :=
  s.data.contains c

/-- JS `xs.join(sep)`. -/
def jsJoin (sep : String) : List String → String
  | [] => ""
  | x :: xs => xs.foldl (fun a y => a ++ sep ++ y) x

/-- `s?.split(sep)[i]`: split an optional string and index (out of range is
`undefined`). -/
def jsIdx (o : Option String) (sep : String) (i : Nat) : Option String :=
  o.bind (fun s => (jsSplit sep s).get? i)

/-! ## Data model -/

/-- A value in the parsed JSON request body. -/
inductive JVal where
  | jstr : String → JVal
  | jnum : ℚ → JVal
  | jbool : Bool → JVal
  | jnull : JVal
  | jarr : List JVal → JVal

/-- The fields of the checkout request body that exist in the claims'
scenarios.  The handler destructures only `productId` and `productIds`
(`const { productId, productIds } = body`); `price` models a forged
client-supplied price field, which is present in the body but never read. -/
structure CheckoutBody where
  productId : Option JVal
  productIds : Option JVal
  price : Option JVal

/-- Hardcoded server-side product list (`create-checkout/index.ts` lines
137-178; the same list is the fallback in `stripe-webhook/index.ts` lines
227-233). -/
structure Product where
  id : String
  title : String
  description : String
  price : ℚ
  category : String
  imageUrl : String
deriving DecidableEq, Repr

def serverProducts : List Product :=
  [ { id := "1", title := "AI for Absolute Beginners",
      description := "The ultimate starting point. Learn the basics of ChatGPT and Gemini without the jargon.",
      price := 49.99, category := "Full Course",
      imageUrl := "https://picsum.photos/id/1/600/400" },
    { id := "2", title := "Everyday Productivity Cheat Sheet",
      description := "A handy PDF guide with 50 practical prompts to save you time at home and work.",
      price := 12.99, category := "PDF Guide",
      imageUrl := "https://picsum.photos/id/20/600/400" },
    { id := "3", title := "The \"Friendly Tutor\" GPT",
      description := "A custom GPT configuration designed to explain complex topics like you are 5 years old.",
      price := 19.99, category := "Custom GPT",
      imageUrl := "https://picsum.photos/id/60/600/400" },
    { id := "4", title := "Weekend AI Workshop",
      description := "A mini-course designed to get you up and running with image generation in just 2 days.",
      price := 29.99, category := "Mini-Course",
      imageUrl := "https://picsum.photos/id/96/600/400" },
    { id := "5", title := "The Complete Starter Bundle",
      description := "Get the beginner course, the cheat sheet, and the workshop in one discounted package.",
      price := 79.99, category := "Bundle",
      imageUrl := "https://picsum.photos/id/201/600/400" } ]

/-- Row of the `profiles` table (the columns touched by the checkout
handler). -/
structure ProfileRow where
  id : String
  stripeCustomerId : Option String
deriving DecidableEq, Repr

/-- Payment status enum (§3 of the spec; the code writes the string values
`'pending' | 'succeeded' | 'failed'`). -/
inductive PayStatus where
  | pending
  | succeeded
  | failed
  | canceled
  | refunded
deriving DecidableEq, Repr

/-- The `metadata` JSON column of a `payments` row as written by
`create-checkout` (lines 272-278) and read back by the webhook (lines
365-373 of the catalog-backed variant).  The additionally written
`product_ids` array and `product_count` are never read downstream
(`productIdsFromMetadata` at line 364 is computed but unused) and are
omitted. -/
structure PayMeta where
  productDescriptions : Option String
  productCategories : Option String
  productImageUrls : Option String
deriving DecidableEq, Repr

/-- Row of the `payments` table (columns used by the handlers;
`product_title` is written but never read back and is omitted). -/
structure PaymentRow where
  id : Nat
  userId : String
  sessionId : String
  intentId : Option String
  customerId : Option String
  amount : ℚ
  status : PayStatus
  productIdField : String
  meta : PayMeta
  purchaseId : Option Nat
deriving DecidableEq, Repr

/-- Row of the `purchases` table.  `sessionId` is `none` for rows inserted
through the schema-drift retry path, which omits the
`stripe_checkout_session_id` field. -/
structure PurchaseRow where
  id : Nat
  userId : String
  productId : String
  title : String
  description : String
  price : ℚ
  category : String
  imageUrl : String
  sessionId : Option String
deriving DecidableEq, Repr

/-- Row of the `products` table (catalog store, keyed by
`stripe_product_id`). -/
structure CatalogRow where
  stripeProductId : String
  stripePriceId : Option String
  name : String
  description : Option String
  price : ℚ
  currency : String
  category : String
  imageUrl : Option String
  active : Bool
deriving DecidableEq, Repr

/-- The durable store.  `purchasesHasSessionCol` is the deployed schema of
the `purchases` table: `false` models the schema-drift deployments in which
the `stripe_checkout_session_id` column is missing (the condition the retry
path at webhook lines 456-482 exists for). -/
structure Store where
  products : List CatalogRow
  payments : List PaymentRow
  purchases : List PurchaseRow
  profiles : List ProfileRow
  purchasesHasSessionCol : Bool
  nextPaymentId : Nat
  nextPurchaseId : Nat
deriving DecidableEq, Repr

/-! ## Checkout session builder (`create-checkout/index.ts`) -/

/-- Oracle for the external calls made by the checkout handler:
`customerCreate` is the result of `stripe.customers.create` (`none` = the
call throws), `sessionCreate` the result of `stripe.checkout.sessions.create`
(`none` = the call throws, `some sid` = a session with that id), and
`paymentInsertOk` whether the (error-ignored) `payments` insert lands a
row. -/
structure CheckoutEnv where
  customerCreate : Option String
  sessionCreate : Option String
  paymentInsertOk : Bool

/-- One Stripe line item as built at lines 226-237: server catalog data only,
`unit_amount = Math.round(product.price * 100)`. -/
structure LineItem where
  name : String
  description : String
  images : List String
  unitAmount : ℤ
  quantity : Nat
deriving DecidableEq, Repr

def toLineItem (p : Product) : LineItem :=
  { name := p.title
    description := p.description
    images := if p.imageUrl ≠ "" then [p.imageUrl] else []
    unitAmount := round (p.price * 100)
    quantity := 1 }

/-- Body validation, lines 103-130: prefer `productIds` (must be a non-empty
array; entries that are non-strings or empty strings are filtered out),
falling back to a legacy single `productId` (must be a non-empty string). -/
def parseRequestedIds (b : CheckoutBody) : Except String (List String) :=
  let fromSingle : Except String (List String) :=
    match b.productId with
    | some (JVal.jstr s) =>
        if s.length > 0 then Except.ok [s]
        else Except.error "productId must be a non-empty string"
    | some JVal.jnull => Except.ok []
    | some _ => Except.error "productId must be a non-empty string"
    | none => Except.ok []
  match b.productIds with
  | some JVal.jnull => fromSingle
  | some (JVal.jarr xs) =>
      if xs.length > 0 then
        Except.ok (xs.filterMap (fun v =>
          match v with
          | JVal.jstr s => if s.length > 0 then some s else none
          | _ => none))
      else Except.error "productIds must be a non-empty array of product IDs"
  | some _ => Except.error "productIds must be a non-empty array of product IDs"
  | none => fromSingle

/-- Lines 181-183: map each requested id over the hardcoded list and keep the
hits. -/
def selectedProductsFor (ids : List String) : List Product :=
  ids.filterMap (fun i => serverProducts.find? (fun p => p.id = i))

inductive CheckoutResult where
  | ok : String → CheckoutResult
  | err : String → CheckoutResult
deriving DecidableEq, Repr

/-- Result of a checkout invocation: the HTTP-level result, the store after
the run, whether `stripe.checkout.sessions.create` was reached, and the line
items passed to it (empty when it was never reached). -/
structure CheckoutOutcome where
  result : CheckoutResult
  store : Store
  sessionAttempted : Bool
  sentLineItems : List LineItem
deriving Repr

/-- Lines 193-220: get or create the Stripe customer.  If the profile holds
a (truthy) `stripe_customer_id` it is reused and the store is untouched;
otherwise `stripe.customers.create` is called (`none` = it throws, caught
by the outer handler) and the new id is persisted onto the user's profile
row *before* the session is created. -/
def storedCustomerId (st : Store) (userId : String) : Option String :=
  (uniqueFind st.profiles (fun pr => pr.id = userId)).bind
    (fun pr => pr.stripeCustomerId)

def resolveCustomer (env : CheckoutEnv) (st : Store) (userId : String) :
    Option (String × Store) :=
  if strTruthy (storedCustomerId st userId) then
    (storedCustomerId st userId).map (fun c => (c, st))
  else
    match env.customerCreate with
    | none => none
    | some cid =>
        some (cid,
          { st with profiles := st.profiles.map (fun pr =>
              if pr.id = userId then { pr with stripeCustomerId := some cid }
              else pr) })

/-- `create-checkout/index.ts`, the post-authentication body of the handler
(lines 92-304).  Thrown errors are caught at line 291 and become an error
response with the thrown message; no state is rolled back.  The Stripe
failure messages are opaque to the code, modelled by fixed strings. -/
def createCheckout (env : CheckoutEnv) (st : Store) (userId : String)
    (body : CheckoutBody) : CheckoutOutcome :=
  match parseRequestedIds body with
  | Except.error m => ⟨CheckoutResult.err m, st, false, []⟩
  | Except.ok requested =>
    if requested.length = 0 then
      ⟨CheckoutResult.err "productId (string) or productIds (array) is required",
        st, false, []⟩
    else
      let selected := selectedProductsFor requested
      if selected.length = 0 then
        ⟨CheckoutResult.err "No valid products found", st, false, []⟩
      else if selected.length ≠ requested.length then
        ⟨CheckoutResult.err "Some products were not found", st, false, []⟩
      else
        match resolveCustomer env st userId with
        | none => ⟨CheckoutResult.err "stripe customer creation failed", st, false, []⟩
        | some (customerId, st1) =>
          let lineItems := selected.map toLineItem
          let totalAmount := (selected.map (fun p => p.price)).sum
          match env.sessionCreate with
          | none =>
              ⟨CheckoutResult.err "stripe session creation failed", st1, true, lineItems⟩
          | some sessionId =>
            let st2 :=
              if env.paymentInsertOk then
                { st1 with
                  payments := st1.payments ++
                    [ { id := st1.nextPaymentId
                        userId := userId
                        sessionId := sessionId
                        intentId := none
                        customerId := some customerId
                        amount := totalAmount
                        status := PayStatus.pending
                        productIdField := jsJoin "," requested
                        meta :=
                          { productDescriptions :=
                              some (jsJoin " | "
                                (selected.map (fun p => p.description)))
                            productCategories :=
                              some (jsJoin ", "
                                (selected.map (fun p => p.category)))
                            productImageUrls :=
                              some (jsJoin ", "
                                (selected.map (fun p => p.imageUrl))) }
                        purchaseId := none } ]
                  nextPaymentId := st1.nextPaymentId + 1 }
              else st1
            ⟨CheckoutResult.ok sessionId, st2, true, lineItems⟩

/-! ## Webhook reconciler

Embedding of the catalog-backed webhook variant (the authoritative one per
design note §9 of the spec; `sync-products/index.ts` lines 178-694).  The
older variant in `stripe-webhook/index.ts` differs only in resolving product
details from the hardcoded `serverProducts` list instead of the `products`
table; the payment-status updates, the idempotency guard and the
schema-drift retry are textually identical in both. -/

/-- `session.metadata` fields read by the `checkout.session.completed`
handler. -/
structure SessionMeta where
  userId : Option String
  productIds : Option String
  productId : Option String
  productTitles : Option String
deriving DecidableEq, Repr

/-- The `checkout.session.completed` event object fields that are read. -/
structure SessionObj where
  id : String
  paymentIntent : Option String
  metadata : SessionMeta
deriving DecidableEq, Repr

/-- A verified Stripe event, after `constructEventAsync` has parsed the raw
payload.  Product/price catalog events are handled by Catalog Sync and not
needed by any claim; they fall under `otherEvent` together with all unknown
event kinds. -/
inductive StripeEvent where
  | checkoutSessionCompleted : SessionObj → StripeEvent
  | paymentIntentSucceeded : String → StripeEvent
  | paymentIntentFailed : String → StripeEvent
  | otherEvent : String → StripeEvent
deriving DecidableEq, Repr

/-- Oracle for the webhook handler's external calls: `intentStatus` is the
status string returned by `stripe.paymentIntents.retrieve`, `mac` the HMAC
underlying Stripe's signature scheme, `webhookSecret` the shared signing
secret, and `parseEvent` the JSON parse of a (verified) raw payload. -/
structure WebhookEnv where
  intentStatus : String → String
  mac : String → String → String
  webhookSecret : String
  parseEvent : String → StripeEvent

/-- Lines 313-319: retrieve the payment intent when the session carries a
(truthy) intent id. -/
def retrievedIntentStatus (env : WebhookEnv) (s : SessionObj) : Option String :=
  match s.paymentIntent with
  | some pid => if pid ≠ "" then some (env.intentStatus pid) else none
  | none => none

/-- Lines 345-354: the comma-separated product id list from session
metadata, with the legacy singular `product_id` fallback. -/
def parsedProductIds (m : SessionMeta) : List String :=
  let s1 : Option String :=
    if strTruthy m.productIds then m.productIds
    else if strTruthy m.productId then m.productId
    else m.productIds
  match s1 with
  | some s =>
      if s ≠ "" then
        if jsIncludes s ',' then (jsSplit "," s).map jsTrim else [jsTrim s]
      else []
  | none => []

/-- Product details resolved for the purchase loop. -/
structure ProdInfo where
  id : String
  title : String
  description : String
  price : ℚ
  category : String
  imageUrl : String
deriving DecidableEq, Repr

/-- Lines 375-395: the active-products query filtered by the session's
product ids, loaded into a map keyed by `stripe_product_id` (`Map.set`
lets a later row overwrite an earlier one, hence the reversed find). -/
def catalogInfo (products : List CatalogRow) (pids : List String) (pid : String) :
    Option ProdInfo :=
  ((products.filter
      (fun r => r.active && pids.contains r.stripeProductId)).reverse.find?
    (fun r => r.stripeProductId = pid)).map
    (fun r =>
      { id := r.stripeProductId
        title := r.name
        description := r.description.getD ""
        price := r.price
        category := r.category
        imageUrl := r.imageUrl.getD "" })

/-- The loop-invariant parameters of the purchase-materialization loop
(lines 397-487). -/
structure MatParams where
  hasCol : Bool
  userId : String
  sessionId : String
  numProducts : Nat
  payAmount : ℚ
  metaDescriptions : Option String
  metaCategories : Option String
  metaImageUrls : Option String
  sessionTitles : Option String
  lookup : String → Option ProdInfo

/-- State threaded through the purchase loop: the `purchases` table, the
next fresh row id, and the ids collected in `purchaseRecords`. -/
structure MatState where
  purchases : List PurchaseRow
  nextId : Nat
  createdIds : List Nat
deriving DecidableEq, Repr

/-- The idempotency key match (lines 422-428): same `user_id`, `product_id`
and `stripe_checkout_session_id`. -/
def purchaseKey (uid pid sid : String) (r : PurchaseRow) : Bool :=
  r.userId = uid && r.productId = pid && r.sessionId = some sid

/-- Line 414: `productFromList?.price || (n === 1 ? Number(payment.amount) : 0)`
— a price of `0` is falsy in JS and falls through to the fallback. -/
def resolvedPrice (P : MatParams) (info : Option ProdInfo) : ℚ :=
  let fallback : ℚ := if P.numProducts = 1 then P.payAmount else 0
  match info with
  | some p => if p.price = 0 then fallback else p.price
  | none => fallback

/-- The purchase row built for the `i`-th product id (lines 436-445):
details are resolved catalog-first for the title, snapshot-first for
description/category/image, exactly as the `||` chains at lines 407-410;
a drift-schema insert goes through the retry without the session id. -/
def stepRow (P : MatParams) (st : MatState) (i : Nat) (rawPid : String) :
    PurchaseRow :=
  let pid := jsTrim rawPid
  let info := P.lookup pid
  { id := st.nextId
    userId := P.userId
    productId := pid
    title :=
      jsStrD (jsOrS (info.map (fun p => p.title)) (jsIdx P.sessionTitles ", " i))
        "Product"
    description :=
      jsStrD (jsOrS (jsIdx P.metaDescriptions " | " i)
        (info.map (fun p => p.description))) ""
    price := resolvedPrice P info
    category :=
      jsStrD (jsOrS (jsIdx P.metaCategories ", " i)
        (info.map (fun p => p.category))) ""
    imageUrl :=
      jsStrD (jsOrS (jsIdx P.metaImageUrls ", " i)
        (info.map (fun p => p.imageUrl))) ""
    sessionId := if P.hasCol then some P.sessionId else none }

/-- One iteration of the purchase loop (lines 400-487) for the `i`-th
product id.

* the skip guard (line 416) fires only when the product is absent from the
  catalog *and* the resolved price is 0;
* the idempotency lookup (`.maybeSingle()`, lines 422-428) sees a row only
  when the schema has the `stripe_checkout_session_id` column (otherwise the
  query errors and its ignored `data` is null) and exactly one row matches;
* the insert (lines 447-451) fails in drift schemas with an error naming the
  missing column, which triggers the retry without that field (lines
  456-482); the retried row therefore carries no session id. -/
def materializeStep (P : MatParams) (st : MatState) (i : Nat) (rawPid : String) :
    MatState :=
  let pid := jsTrim rawPid
  let info := P.lookup pid
  let productPrice := resolvedPrice P info
  if info = none ∧ productPrice = 0 then st
  else
    let existing :=
      if P.hasCol then uniqueFind st.purchases (purchaseKey P.userId pid P.sessionId)
      else none
    if existing.isSome then st
    else
      { purchases := st.purchases ++ [stepRow P st i rawPid]
        nextId := st.nextId + 1
        createdIds := st.createdIds ++ [st.nextId] }

/-- The indexed `for` loop over the parsed product ids. -/
def matRun (P : MatParams) (st : MatState) (i : Nat) : List String → MatState
  | [] => st
  | pid :: rest => matRun P (materializeStep P st i pid) (i + 1) rest

/-- Lines 330-337: the unconditional payment-status update — `succeeded`
when the retrieved intent status is `'succeeded'`, otherwise back to
`'pending'`, together with storing the session's intent id. -/
def scRowUpdate (env : WebhookEnv) (s : SessionObj) (paymentId : Nat)
    (q : PaymentRow) : PaymentRow :=
  if q.id = paymentId then
    { q with
      intentId := s.paymentIntent
      status :=
        if retrievedIntentStatus env s = some "succeeded" then
          PayStatus.succeeded
        else PayStatus.pending }
  else q

def scPaymentUpdate (env : WebhookEnv) (s : SessionObj) (paymentId : Nat)
    (payments : List PaymentRow) : List PaymentRow :=
  payments.map (scRowUpdate env s paymentId)

/-- Lines 489-497: back-link the first created purchase id onto the payment
row (only when the loop created at least one purchase). -/
def backLink (paymentId : Nat) (createdIds : List Nat)
    (payments : List PaymentRow) : List PaymentRow :=
  match createdIds.head? with
  | some firstId =>
      payments.map (fun q =>
        if q.id = paymentId then { q with purchaseId := some firstId } else q)
  | none => payments

/-- The `MatParams` record assembled by the handler for a given store,
session and payment row. -/
def scParams (st : Store) (s : SessionObj) (payment : PaymentRow)
    (pids : List String) : MatParams :=
  { hasCol := st.purchasesHasSessionCol
    userId := s.metadata.userId.getD ""
    sessionId := s.id
    numProducts := pids.length
    payAmount := payment.amount
    metaDescriptions := payment.meta.productDescriptions
    metaCategories := payment.meta.productCategories
    metaImageUrls := payment.meta.productImageUrls
    sessionTitles := s.metadata.productTitles
    lookup := catalogInfo st.products pids }

/-- The `checkout.session.completed` handler (lines 310-502): look up the
payment by session id, set its status from the retrieved intent status
(`succeeded` or back to `pending`), and — only for a succeeded intent with a
user id in the session metadata — materialize purchases and back-link the
first created purchase onto the payment. -/
def handleSessionCompleted (env : WebhookEnv) (st : Store) (s : SessionObj) :
    Store :=
  match uniqueFind st.payments (fun p => p.sessionId = s.id) with
  | none => st
  | some payment =>
    let st1 : Store :=
      { st with payments := scPaymentUpdate env s payment.id st.payments }
    if retrievedIntentStatus env s = some "succeeded" ∧
        strTruthy s.metadata.userId then
      let pids := parsedProductIds s.metadata
      if pids.length = 0 then st1
      else
        let ms := matRun (scParams st s payment pids)
          ⟨st1.purchases, st1.nextPurchaseId, []⟩ 0 pids
        { st1 with
          purchases := ms.purchases
          nextPurchaseId := ms.nextId
          payments := backLink payment.id ms.createdIds st1.payments }
    else st1

/-- The `payment_intent.succeeded` handler (lines 504-518): set status
`succeeded` on every payment whose stored intent id matches. -/
def handleIntentSucceeded (st : Store) (pid : String) : Store :=
  { st with
    payments := st.payments.map (fun q =>
      if q.intentId = some pid then
        { q with intentId := some pid, status := PayStatus.succeeded }
      else q) }

/-- The `payment_intent.payment_failed` handler (lines 520-534). -/
def handleIntentFailed (st : Store) (pid : String) : Store :=
  { st with
    payments := st.payments.map (fun q =>
      if q.intentId = some pid then
        { q with intentId := some pid, status := PayStatus.failed }
      else q) }

/-- The event dispatch (lines 309-666); unknown kinds are logged and
acknowledged without action. -/
def dispatchEvent (env : WebhookEnv) (st : Store) : StripeEvent → Store
  | StripeEvent.checkoutSessionCompleted s => handleSessionCompleted env st s
  | StripeEvent.paymentIntentSucceeded pid => handleIntentSucceeded st pid
  | StripeEvent.paymentIntentFailed pid => handleIntentFailed st pid
  | StripeEvent.otherEvent _ => st

/-- An inbound webhook HTTP request: method, the `Stripe-Signature` header,
and the raw byte payload (decoded to a string before verification, exactly
as `new TextDecoder().decode(await req.arrayBuffer())` does). -/
structure WebhookRequest where
  method : String
  signature : Option String
  rawBody : String
deriving DecidableEq, Repr

structure WebhookResponse where
  status : Nat
  store : Store
deriving DecidableEq, Repr

/-- The webhook entry point (lines 178-694): answer a CORS preflight
(`OPTIONS`) with 200 `'ok'` before any signature handling (lines 180-182);
reject any other non-POST method (405), a missing signature header (400),
an empty body (400), and a signature that does not equal the HMAC of the
*raw body as received* (401, via the `constructEventAsync` catch) — all
without touching the store; only a verified event is dispatched (200). -/
def handleWebhook (env : WebhookEnv) (st : Store) (req : WebhookRequest) :
    WebhookResponse :=
  if req.method = "OPTIONS" then ⟨200, st⟩
  else if req.method ≠ "POST" then ⟨405, st⟩
  else
    match req.signature with
    | none => ⟨400, st⟩
    | some sig =>
      if req.rawBody = "" then ⟨400, st⟩
      else if sig ≠ env.mac env.webhookSecret req.rawBody then ⟨401, st⟩
      else ⟨200, dispatchEvent env st (env.parseEvent req.rawBody)⟩

/-- A sequence of verified events processed one request at a time. -/
def runEvents (env : WebhookEnv) (st : Store) : List StripeEvent → Store
  | [] => st
  | e :: rest => runEvents env (dispatchEvent env st e) rest

/-! ## Manual bulk product sync (`sync-products/index.ts` lines 21-145) -/

/-- A Stripe price object (the fields the sync reads). -/
structure PriceObj where
  id : String
  unitAmount : Option ℤ
  currency : String
deriving DecidableEq, Repr

/-- A Stripe product object as listed by `stripe.products.list`:
`default_price` is either a price id to dereference or an expanded price
object. -/
structure SyncInput where
  id : String
  name : String
  description : Option String
  defaultPrice : Option (String ⊕ PriceObj)
  images : List String
  metaCategory : Option String
  metaCategoryCap : Option String
  active : Bool
deriving DecidableEq, Repr

/-- Oracle for the bulk sync: `priceRetrieve` is `stripe.prices.retrieve`
(`none` = the call throws, caught by the per-product `catch`), and
`upsertFails` whether the database upsert for a given product id returns an
error. -/
structure SyncEnv where
  priceRetrieve : String → Option PriceObj
  upsertFails : String → Bool

/-- Lines 63-77: resolve the default price; `none` models the per-product
`catch` (a thrown `prices.retrieve`). -/
def resolveSyncPrice (env : SyncEnv) (p : SyncInput) :
    Option (Option PriceObj × ℚ) :=
  match p.defaultPrice with
  | none => some (none, 0)
  | some (Sum.inl prid) =>
      match env.priceRetrieve prid with
      | none => none
      | some po =>
          some (some po, match po.unitAmount with
            | some a => (a : ℚ) / 100
            | none => 0)
  | some (Sum.inr po) =>
      some (some po, match po.unitAmount with
        | some a => (a : ℚ) / 100
        | none => 0)

/-- The catalog row upserted at lines 88-104 (`onConflict:
'stripe_product_id'`). -/
def syncRow (p : SyncInput) (po : Option PriceObj) (amt : ℚ) : CatalogRow :=
  { stripeProductId := p.id
    stripePriceId := po.map (fun x => x.id)
    name := p.name
    description := p.description
    price := amt
    currency := (po.map (fun x => x.currency)).getD "eur"
    category := jsStrD (jsOrS p.metaCategory p.metaCategoryCap) ""
    imageUrl := p.images.head?
    active := p.active }

/-- Upsert keyed on `stripe_product_id`: update all rows with the key if any
exist, otherwise insert. -/
def upsertCatalog (products : List CatalogRow) (row : CatalogRow) :
    List CatalogRow :=
  if products.any (fun r => r.stripeProductId = row.stripeProductId) then
    products.map (fun r => if r.stripeProductId = row.stripeProductId then row else r)
  else products ++ [row]

/-- Whether one product's sync iteration succeeds (independent of the
store): the price retrieval must not throw and the upsert must not error. -/
def syncSucceeds (env : SyncEnv) (p : SyncInput) : Bool :=
  (resolveSyncPrice env p).isSome && !env.upsertFails p.id

/-- One iteration of the sync loop (lines 61-117): any thrown error or
upsert error increments the error counter and the loop continues with the
next product. -/
def syncOne (env : SyncEnv) (st : Store) (p : SyncInput) : Store × Bool :=
  match resolveSyncPrice env p with
  | none => (st, false)
  | some (po, amt) =>
      if env.upsertFails p.id then (st, false)
      else ({ st with products := upsertCatalog st.products (syncRow p po amt) }, true)

structure SyncResult where
  synced : Nat
  errors : Nat
  total : Nat
deriving DecidableEq, Repr

/-- The loop state: store plus the two counters (`syncedCount` is
incremented in the success branch, `errorCount` in the error/catch
branches). -/
def bulkSyncLoop (env : SyncEnv) : Store × Nat × Nat → List SyncInput →
    Store × Nat × Nat
  | acc, [] => acc
  | (st, s, e), p :: rest =>
      let r := syncOne env st p
      if r.2 then bulkSyncLoop env (r.1, s + 1, e) rest
      else bulkSyncLoop env (r.1, s, e + 1) rest

/-- `sync-products` main body (lines 51-131): iterate over every listed
product and report `{synced, errors, total}`. -/
def bulkSync (env : SyncEnv) (st : Store) (ps : List SyncInput) :
    SyncResult × Store :=
  let fin := bulkSyncLoop env (st, 0, 0) ps
  (⟨fin.2.1, fin.2.2, ps.length⟩, fin.1)

/-! ## Helper lemmas -/

theorem filter_map_of_pres {α : Type} (f : α → α) (p : α → Bool)
    (h : ∀ x, p (f x) = p x) :
    ∀ l : List α, (l.map f).filter p = (l.filter p).map f := by
  intro l
  induction l with
  | nil => rfl
  | cons a t ih =>
      by_cases ha : p a = true
      · simp [List.filter_cons, h a, ha, ih]
      · simp only [Bool.not_eq_true] at ha
        simp [List.filter_cons, h a, ha, ih]

theorem uniqueFind_map_of_pres {α : Type} (f : α → α) (p : α → Bool)
    (h : ∀ x, p (f x) = p x) (l : List α) :
    uniqueFind (l.map f) p = (uniqueFind l p).map f := by
  unfold uniqueFind
  rw [filter_map_of_pres f p h l]
  cases hl : l.filter p with
  | nil => rfl
  | cons a t => cases t <;> rfl

theorem uniqueFind_eq_some_iff {α : Type} (l : List α) (p : α → Bool) (x : α) :
    uniqueFind l p = some x ↔ l.filter p = [x] := by
  unfold uniqueFind
  cases hl : l.filter p with
  | nil => simp
  | cons a t => cases t <;> simp

theorem uniqueFind_isSome_iff {α : Type} (l : List α) (p : α → Bool) :
    (uniqueFind l p).isSome = true ↔ (l.filter p).length = 1 := by
  unfold uniqueFind
  cases hl : l.filter p with
  | nil => simp
  | cons a t => cases t <;> simp

/-! ## Claim C7: bulk resync failure isolation and counters -/

theorem bulkSyncLoop_spec (env : SyncEnv) :
    ∀ (ps : List SyncInput) (st : Store) (s e : Nat),
      (bulkSyncLoop env (st, s, e) ps).2.1
          = s + (ps.filter (fun p => syncSucceeds env p)).length ∧
      (bulkSyncLoop env (st, s, e) ps).2.2
          = e + (ps.filter (fun p => !syncSucceeds env p)).length := by
  intro ps
  induction ps with
  | nil => intro st s e; simp [bulkSyncLoop]
  | cons p rest ih =>
      intro st s e
      have hone : (syncOne env st p).2 = syncSucceeds env p := by
        unfold syncOne syncSucceeds
        cases hr : resolveSyncPrice env p with
        | none => simp [hr]
        | some v =>
            by_cases hu : env.upsertFails p.id = true
            · simp [hr, hu]
            · simp only [Bool.not_eq_true] at hu
              simp [hr, hu]
      unfold bulkSyncLoop
      simp only [hone]
      by_cases hs : syncSucceeds env p = true
      · rcases ih (syncOne env st p).1 (s + 1) e with ⟨i1, i2⟩
        simp only [hs, if_true, i1, i2, List.filter_cons]
        simp [hs]
        omega
      · simp only [Bool.not_eq_true] at hs
        rcases ih (syncOne env st p).1 s (e + 1) with ⟨i1, i2⟩
        simp only [hs, if_false, Bool.false_eq_true, i1, i2, List.filter_cons]
        simp [hs]
        omega

/-- Claim C7: a bulk resync over N listed products returns a summary with
`total = N`; every product contributes to exactly one of the `synced` /
`errors` counters (`synced` counts exactly the products whose iteration
succeeds, independently of any other product's failure), so
`synced + errors = total`.  In particular a failure on one product does not
abort the processing or counting of the remaining products. -/
theorem claim_c7_bulk_resync_summary (env : SyncEnv) (st : Store)
    (ps : List SyncInput) :
    (bulkSync env st ps).1.total = ps.length ∧
    (bulkSync env st ps).1.synced
        = (ps.filter (fun p => syncSucceeds env p)).length ∧
    (bulkSync env st ps).1.synced + (bulkSync env st ps).1.errors
        = (bulkSync env st ps).1.total := by
  rcases bulkSyncLoop_spec env ps st 0 0 with ⟨h1, h2⟩
  unfold bulkSync
  refine ⟨rfl, by simpa using h1, ?_⟩
  simp only [h1, h2]
  simp only [Nat.zero_add]
  exact (List.length_eq_length_filter_add (l := ps)
    (fun p => syncSucceeds env p)).symm

/-! ## Claims C2, C3, C10: checkout failure paths -/

/-- Concrete fixtures used by witnesses and counterexamples. -/
def cenvOk : CheckoutEnv :=
  { customerCreate := some "cus_new", sessionCreate := some "cs_9",
    paymentInsertOk := true }

def cenvSessionFail : CheckoutEnv :=
  { customerCreate := some "cus_new", sessionCreate := none,
    paymentInsertOk := true }

def cstore0 : Store :=
  { products := [], payments := [], purchases := [],
    profiles := [{ id := "u1", stripeCustomerId := none }],
    purchasesHasSessionCol := true, nextPaymentId := 0, nextPurchaseId := 0 }

def bodyMissingProd : CheckoutBody :=
  { productId := none
    productIds := some (JVal.jarr [JVal.jstr "1", JVal.jstr "missingProd"])
    price := none }

def bodyTwoProds : CheckoutBody :=
  { productId := none
    productIds := some (JVal.jarr [JVal.jstr "1", JVal.jstr "2"])
    price := none }

theorem resolveCustomer_frame (env : CheckoutEnv) (st : Store) (uid c : String)
    (st1 : Store) (h : resolveCustomer env st uid = some (c, st1)) :
    st1.payments = st.payments ∧ st1.products = st.products ∧
    st1.purchases = st.purchases := by
  unfold resolveCustomer at h
  by_cases hT : strTruthy (storedCustomerId st uid) = true
  · rw [if_pos hT] at h
    rcases Option.map_eq_some'.mp h with ⟨x, hx, hpair⟩
    injection hpair with hc hst
    subst hst
    exact ⟨rfl, rfl, rfl⟩
  · rw [if_neg hT] at h
    cases hcc : env.customerCreate with
    | none => rw [hcc] at h; cases h
    | some cid =>
        rw [hcc] at h
        cases h
        exact ⟨rfl, rfl, rfl⟩

theorem createCheckout_sessionFail (env : CheckoutEnv) (st : Store)
    (uid : String) (body : CheckoutBody) (h : env.sessionCreate = none) :
    (createCheckout env st uid body).store.payments = st.payments ∧
    ∀ sid, (createCheckout env st uid body).result ≠ CheckoutResult.ok sid := by
  cases hp : parseRequestedIds body with
  | error m => simp [createCheckout, hp]
  | ok requested =>
    by_cases h0 : requested.length = 0
    · simp [createCheckout, hp, h0]
    · by_cases h1 : (selectedProductsFor requested).length = 0
      · simp [createCheckout, hp, h0, h1]
      · by_cases h2 : (selectedProductsFor requested).length ≠ requested.length
        · simp [createCheckout, hp, h0, h1, h2]
        · cases hc : resolveCustomer env st uid with
          | none => simp [createCheckout, hp, h0, h1, h2, hc]
          | some pr =>
            obtain ⟨c, st1⟩ := pr
            have hframe := resolveCustomer_frame env st uid c st1 hc
            simp [createCheckout, hp, h0, h1, h2, hc, h, hframe.1]

/-- Claim C3: if the processor's session-creation call fails (throws), the
run returns an error, and — in fact for every run that does not succeed —
the `payments` table is left unchanged: the Payment insert is sequenced
strictly after a successful `stripe.checkout.sessions.create`. -/
theorem claim_c3_no_payment_on_processor_failure (env : CheckoutEnv)
    (st : Store) (uid : String) (body : CheckoutBody)
    (h : env.sessionCreate = none) :
    (createCheckout env st uid body).store.payments = st.payments ∧
    ∀ sid, (createCheckout env st uid body).result ≠ CheckoutResult.ok sid :=
  createCheckout_sessionFail env st uid body h

theorem claim_c3_witness :
    cenvSessionFail.sessionCreate = none ∧
    (createCheckout cenvSessionFail cstore0 "u1" bodyTwoProds).store.payments
        = cstore0.payments ∧
    ∀ sid, (createCheckout cenvSessionFail cstore0 "u1" bodyTwoProds).result
        ≠ CheckoutResult.ok sid := by
  refine ⟨rfl, ?_⟩
  exact claim_c3_no_payment_on_processor_failure cenvSessionFail cstore0 "u1"
    bodyTwoProds rfl

/-- Claim C2 counterexample: checking out `["1", "missingProd"]` (a valid id
plus an unknown one) fails with zero Payment rows and no processor session,
but the error is the generic `'Some products were not found'` — it does not
name `missingProd`, contradicting "the returned error enumerates the
specific missing ids". -/
theorem claim_c2_counterexample :
    (createCheckout cenvOk cstore0 "u1" bodyMissingProd).result
        = CheckoutResult.err "Some products were not found" ∧
    ¬ List.IsInfix "missingProd".toList
        "Some products were not found".toList ∧
    (createCheckout cenvOk cstore0 "u1" bodyMissingProd).store.payments = [] ∧
    (createCheckout cenvOk cstore0 "u1" bodyMissingProd).sessionAttempted
        = false := by
  refine ⟨rfl, by decide, rfl, rfl⟩

/-- Claim C2 (amended): a checkout request whose id list contains at least
one id that does not resolve against the server-side product set fails,
creates zero Payment rows, leaves the store entirely unchanged and never
reaches the processor's session-creation call; the error is the generic
`'No valid products found'` / `'Some products were not found'` message and
does not enumerate the missing ids. -/
theorem claim_c2_all_or_nothing (env : CheckoutEnv) (st : Store) (uid : String)
    (body : CheckoutBody) (ids : List String)
    (hp : parseRequestedIds body = Except.ok ids)
    (hne : (selectedProductsFor ids).length ≠ ids.length) :
    (createCheckout env st uid body).result
        = CheckoutResult.err (if (selectedProductsFor ids).length = 0
            then "No valid products found"
            else "Some products were not found") ∧
    (createCheckout env st uid body).store = st ∧
    (createCheckout env st uid body).sessionAttempted = false := by
  have h0 : ids.length ≠ 0 := by
    intro h
    apply hne
    have hnil : ids = [] := List.length_eq_zero.mp h
    simp [selectedProductsFor, hnil]
  by_cases h1 : (selectedProductsFor ids).length = 0
  · simp [createCheckout, hp, h0, h1]
  · simp [createCheckout, hp, h0, h1, hne]

theorem claim_c2_witness :
    parseRequestedIds bodyMissingProd = Except.ok ["1", "missingProd"] ∧
    (selectedProductsFor ["1", "missingProd"]).length
        ≠ (["1", "missingProd"] : List String).length ∧
    ((createCheckout cenvOk cstore0 "u1" bodyMissingProd).result
        = CheckoutResult.err
            (if (selectedProductsFor ["1", "missingProd"]).length = 0
              then "No valid products found"
              else "Some products were not found") ∧
      (createCheckout cenvOk cstore0 "u1" bodyMissingProd).store = cstore0 ∧
      (createCheckout cenvOk cstore0 "u1" bodyMissingProd).sessionAttempted
        = false) :=
  ⟨rfl, by decide,
    claim_c2_all_or_nothing cenvOk cstore0 "u1" bodyMissingProd
      ["1", "missingProd"] rfl (by decide)⟩

/-- Claim C10: when the user has no stored processor customer id and
`stripe.customers.create` succeeds but `stripe.checkout.sessions.create`
fails, the run returns an error and writes no Payment row, yet the new
customer id has already been persisted to every profile row of the user —
the error path rolls nothing back. -/
theorem claim_c10_profile_mutation_retained (env : CheckoutEnv) (st : Store)
    (uid : String) (body : CheckoutBody) (ids : List String) (cid : String)
    (hp : parseRequestedIds body = Except.ok ids)
    (h0 : ids.length ≠ 0)
    (hall : (selectedProductsFor ids).length = ids.length)
    (hstored : strTruthy (storedCustomerId st uid) = false)
    (hcc : env.customerCreate = some cid)
    (hsf : env.sessionCreate = none) :
    (createCheckout env st uid body).result
        = CheckoutResult.err "stripe session creation failed" ∧
    (∀ pr ∈ (createCheckout env st uid body).store.profiles,
        pr.id = uid → pr.stripeCustomerId = some cid) ∧
    (createCheckout env st uid body).store.payments = st.payments := by
  have h1 : (selectedProductsFor ids).length ≠ 0 := by rw [hall]; exact h0
  have hc : resolveCustomer env st uid
      = some (cid, { st with profiles := st.profiles.map (fun pr =>
          if pr.id = uid then { pr with stripeCustomerId := some cid }
          else pr) }) := by
    simp [resolveCustomer, hstored, hcc]
  have h2 : ¬ (selectedProductsFor ids).length ≠ ids.length := by
    simp [hall]
  refine ⟨?_, ?_, ?_⟩
  · simp [createCheckout, hp, h0, h1, h2, hc, hsf]
  · simp only [createCheckout, hp, h0, h1, h2, hc, hsf]
    simp only [ne_eq, h0, not_false_eq_true, if_false, h1, hall, if_true,
      not_true_eq_false]
    intro pr hpr hid
    simp only [List.mem_map] at hpr
    rcases hpr with ⟨x, hx, hfx⟩
    by_cases hxid : x.id = uid
    · rw [← hfx, if_pos hxid]
    · rw [← hfx, if_neg hxid] at hid ⊢
      exact absurd hid hxid
  · simp [createCheckout, hp, h0, h1, h2, hc, hsf]

theorem claim_c10_witness :
    parseRequestedIds bodyTwoProds = Except.ok ["1", "2"] ∧
    (selectedProductsFor ["1", "2"]).length = (["1", "2"] : List String).length ∧
    strTruthy (storedCustomerId cstore0 "u1") = false ∧
    ((createCheckout cenvSessionFail cstore0 "u1" bodyTwoProds).result
        = CheckoutResult.err "stripe session creation failed" ∧
      (∀ pr ∈ (createCheckout cenvSessionFail cstore0 "u1" bodyTwoProds).store.profiles,
          pr.id = "u1" → pr.stripeCustomerId = some "cus_new") ∧
      (createCheckout cenvSessionFail cstore0 "u1" bodyTwoProds).store.payments
        = cstore0.payments) :=
  ⟨rfl, by decide, by decide,
    claim_c10_profile_mutation_retained cenvSessionFail cstore0 "u1"
      bodyTwoProds ["1", "2"] "cus_new" rfl (by decide) (by decide) (by decide)
      rfl rfl⟩

/-! ## Claim C5: server-authoritative pricing -/

theorem selectedProductsFor_subset (ids : List String) (p : Product)
    (hp : p ∈ selectedProductsFor ids) : p ∈ serverProducts := by
  unfold selectedProductsFor at hp
  rcases List.mem_filterMap.mp hp with ⟨i, _, hfind⟩
  exact List.mem_of_find?_eq_some hfind

theorem createCheckout_lineItems (env : CheckoutEnv) (st : Store)
    (uid : String) (body : CheckoutBody) (li : LineItem)
    (hli : li ∈ (createCheckout env st uid body).sentLineItems) :
    ∃ p, p ∈ serverProducts ∧ li = toLineItem p := by
  cases hp : parseRequestedIds body with
  | error m => simp [createCheckout, hp] at hli
  | ok requested =>
    by_cases h0 : requested.length = 0
    · simp [createCheckout, hp, h0] at hli
    · by_cases h1 : (selectedProductsFor requested).length = 0
      · simp [createCheckout, hp, h0, h1] at hli
      · by_cases h2 : (selectedProductsFor requested).length ≠ requested.length
        · simp [createCheckout, hp, h0, h1, h2] at hli
        · cases hc : resolveCustomer env st uid with
          | none => simp [createCheckout, hp, h0, h1, h2, hc] at hli
          | some pr =>
            obtain ⟨c, st1⟩ := pr
            have hmem : li ∈ (selectedProductsFor requested).map toLineItem := by
              cases hs : env.sessionCreate with
              | none =>
                  simpa [createCheckout, hp, h0, h1, h2, hc, hs] using hli
              | some sid =>
                  simpa [createCheckout, hp, h0, h1, h2, hc, hs] using hli
            rcases List.mem_map.mp hmem with ⟨p, hpmem, hple⟩
            exact ⟨p, selectedProductsFor_subset requested p hpmem, hple.symm⟩

/-- Claim C5: (a) every line item sent to the processor is built from a
product of the hardcoded server-side catalog, with
`unit_amount = Math.round(price * 100)` of that product's server-side price
and no other source; (b) the request body's `price` field is never read —
two requests identical except for a forged client-supplied price produce
identical outcomes (same line items, same Payment rows, same stores). -/
theorem claim_c5_price_authority :
    (∀ (env : CheckoutEnv) (st : Store) (uid : String) (body : CheckoutBody)
        (li : LineItem), li ∈ (createCheckout env st uid body).sentLineItems →
      ∃ p, p ∈ serverProducts ∧ li = toLineItem p ∧
        li.unitAmount = round (p.price * 100)) ∧
    (∀ (env : CheckoutEnv) (st : Store) (uid : String) (body : CheckoutBody)
        (v1 v2 : Option JVal),
      createCheckout env st uid { body with price := v1 }
          = createCheckout env st uid { body with price := v2 }) := by
  constructor
  · intro env st uid body li hli
    rcases createCheckout_lineItems env st uid body li hli with ⟨p, hmem, hle⟩
    exact ⟨p, hmem, hle, by rw [hle]; rfl⟩
  · intro env st uid body v1 v2
    cases body
    rfl

/-- The line item for product "1" at its server-side price. -/
def liFirst : LineItem := toLineItem
  { id := "1", title := "AI for Absolute Beginners",
    description := "The ultimate starting point. Learn the basics of ChatGPT and Gemini without the jargon.",
    price := 49.99, category := "Full Course",
    imageUrl := "https://picsum.photos/id/1/600/400" }

theorem claim_c5_witness :
    ∃ p, p ∈ serverProducts ∧ liFirst = toLineItem p ∧
      liFirst.unitAmount = round (p.price * 100) :=
  claim_c5_price_authority.1 cenvOk cstore0 "u1" bodyTwoProds liFirst (by
    have h : (createCheckout cenvOk cstore0 "u1" bodyTwoProds).sentLineItems
        = (selectedProductsFor ["1", "2"]).map toLineItem := rfl
    rw [h]
    have h2 : selectedProductsFor ["1", "2"]
        = [{ id := "1", title := "AI for Absolute Beginners",
             description := "The ultimate starting point. Learn the basics of ChatGPT and Gemini without the jargon.",
             price := 49.99, category := "Full Course",
             imageUrl := "https://picsum.photos/id/1/600/400" },
           { id := "2", title := "Everyday Productivity Cheat Sheet",
             description := "A handy PDF guide with 50 practical prompts to save you time at home and work.",
             price := 12.99, category := "PDF Guide",
             imageUrl := "https://picsum.photos/id/20/600/400" }] := rfl
    rw [h2]
    exact List.mem_cons_self _ _)

/-! ## Claim C4: signature verification over the raw payload -/

/-- A concrete webhook environment whose HMAC is injective on its inputs. -/
def wenvSig : WebhookEnv :=
  { intentStatus := fun _ => "succeeded"
    mac := fun k b => String.append (String.append k ":") b
    webhookSecret := "whsec"
    parseEvent := fun _ => StripeEvent.otherEvent "ignored" }

/-- A tampered body carried with a stale but well-formed signature header,
delivered as a POST. -/
def reqTampered : WebhookRequest :=
  { method := "POST", signature := some "stale", rawBody := "tampered-body" }

/-- The same tampered body and stale signature on a CORS preflight. -/
def reqOptionsTampered : WebhookRequest :=
  { method := "OPTIONS", signature := some "stale", rawBody := "tampered-body" }

/-- Claim C4 counterexample: an `OPTIONS` request carrying a tampered body
and a stale signature header is answered 200 `'ok'` by the CORS-preflight
branch (lines 180-182) before any signature handling — it is *not*
rejected with a non-2xx authentication error, refuting "every request
whose signature does not verify is rejected with a non-2xx authentication
error" as stated.  (The no-mutation half does hold there: the store is
untouched.) -/
theorem claim_c4_counterexample :
    reqOptionsTampered.signature = some "stale" ∧
    "stale" ≠ wenvSig.mac wenvSig.webhookSecret reqOptionsTampered.rawBody ∧
    (handleWebhook wenvSig cstore0 reqOptionsTampered).status = 200 ∧
    (handleWebhook wenvSig cstore0 reqOptionsTampered).store = cstore0 :=
  ⟨rfl, by decide, rfl, rfl⟩

/-- Claim C4 (amended): for every *POST* request — an actual webhook
delivery — the signature is recomputed over the exact raw byte payload as
received, a request whose signature does not verify is rejected with a
non-2xx (401 when the body is nonempty) and causes no store mutation; and
conversely every run that mutates any store table was a POST whose
signature equalled the HMAC of the raw payload and was answered 200.  The
unrestricted claim fails only on the CORS-preflight `OPTIONS` branch,
which answers 200 before any signature check but never touches the store —
see the counterexample. -/
theorem claim_c4_post_signature_rejection :
    (∀ (env : WebhookEnv) (st : Store) (req : WebhookRequest) (s : String),
      req.method = "POST" →
      req.signature = some s → s ≠ env.mac env.webhookSecret req.rawBody →
      (handleWebhook env st req).status ≠ 200 ∧
      (handleWebhook env st req).store = st) ∧
    (∀ (env : WebhookEnv) (st : Store) (req : WebhookRequest) (s : String),
      req.method = "POST" → req.rawBody ≠ "" →
      req.signature = some s → s ≠ env.mac env.webhookSecret req.rawBody →
      (handleWebhook env st req).status = 401) ∧
    (∀ (env : WebhookEnv) (st : Store) (req : WebhookRequest),
      (handleWebhook env st req).store ≠ st →
      req.method = "POST" ∧
      req.signature = some (env.mac env.webhookSecret req.rawBody) ∧
      (handleWebhook env st req).status = 200) := by
  have hmain : ∀ (env : WebhookEnv) (st : Store) (req : WebhookRequest),
      req.method = "POST" →
      (((handleWebhook env st req).status = 200 ∧
          req.signature = some (env.mac env.webhookSecret req.rawBody)) ∨
        ((handleWebhook env st req).status ≠ 200 ∧
          (handleWebhook env st req).store = st)) := by
    intro env st req hPost
    have hOpt : ¬ req.method = "OPTIONS" := by
      rw [hPost]
      decide
    have hm : ¬ req.method ≠ "POST" := by
      rw [hPost]
      simp
    unfold handleWebhook
    cases hsig : req.signature with
    | none => right; simp [hOpt, hm, hsig]
    | some s =>
      by_cases hb : req.rawBody = ""
      · right; simp [hOpt, hm, hsig, hb]
      · by_cases hv : s ≠ env.mac env.webhookSecret req.rawBody
        · right; simp [hOpt, hm, hsig, hb, hv]
        · left
          simp only [ne_eq, not_not] at hv
          subst hv
          simp [hOpt, hm, hsig, hb]
  have hframe : ∀ (env : WebhookEnv) (st : Store) (req : WebhookRequest),
      (handleWebhook env st req).store ≠ st → req.method = "POST" := by
    intro env st req hchanged
    by_cases hOpt : req.method = "OPTIONS"
    · exact absurd (by unfold handleWebhook; rw [if_pos hOpt]) hchanged
    · by_cases hm : req.method ≠ "POST"
      · refine absurd ?_ hchanged
        unfold handleWebhook
        rw [if_neg hOpt, if_pos hm]
      · simpa using hm
  refine ⟨?_, ?_, ?_⟩
  · intro env st req s hPost hsig hne
    rcases hmain env st req hPost with ⟨h200, hver⟩ | ⟨hs, hst⟩
    · rw [hsig] at hver
      cases hver
      exact absurd rfl hne
    · exact ⟨hs, hst⟩
  · intro env st req s hPost hb hsig hne
    have hOpt : ¬ req.method = "OPTIONS" := by
      rw [hPost]
      decide
    have hm : ¬ req.method ≠ "POST" := by
      rw [hPost]
      simp
    unfold handleWebhook
    simp [hOpt, hm, hsig, hb, hne]
  · intro env st req hchanged
    have hPost := hframe env st req hchanged
    rcases hmain env st req hPost with ⟨h200, hver⟩ | ⟨_, hst⟩
    · exact ⟨hPost, hver, h200⟩
    · exact absurd hst hchanged

theorem claim_c4_post_witness :
    reqTampered.method = "POST" ∧
    reqTampered.signature = some "stale" ∧
    "stale" ≠ wenvSig.mac wenvSig.webhookSecret reqTampered.rawBody ∧
    ((handleWebhook wenvSig cstore0 reqTampered).status ≠ 200 ∧
      (handleWebhook wenvSig cstore0 reqTampered).store = cstore0) ∧
    (handleWebhook wenvSig cstore0 reqTampered).status = 401 :=
  ⟨rfl, rfl, by decide,
    claim_c4_post_signature_rejection.1 wenvSig cstore0 reqTampered "stale"
      rfl rfl (by decide),
    claim_c4_post_signature_rejection.2.1 wenvSig cstore0 reqTampered "stale"
      rfl (by decide) rfl (by decide)⟩

/-! ## Claim C9: the session-completed handler's status writes -/

theorem mem_scPaymentUpdate (env : WebhookEnv) (s : SessionObj) (pid : Nat)
    (l : List PaymentRow) (q : PaymentRow)
    (hq : q ∈ scPaymentUpdate env s pid l) (hid : q.id = pid) :
    q.status = (if retrievedIntentStatus env s = some "succeeded"
        then PayStatus.succeeded else PayStatus.pending) := by
  unfold scPaymentUpdate at hq
  rcases List.mem_map.mp hq with ⟨x, hx, hfx⟩
  by_cases hxid : x.id = pid
  · rw [← hfx]
    unfold scRowUpdate
    rw [if_pos hxid]
  · rw [← hfx] at hid
    unfold scRowUpdate at hid
    rw [if_neg hxid] at hid
    exact absurd hid hxid

theorem mem_backLink (pid : Nat) (ids : List Nat) (l : List PaymentRow)
    (q : PaymentRow) (hq : q ∈ backLink pid ids l) :
    ∃ x ∈ l, q.status = x.status ∧ q.id = x.id ∧ q.sessionId = x.sessionId := by
  unfold backLink at hq
  cases h : ids.head? with
  | none =>
      rw [h] at hq
      exact ⟨q, hq, rfl, rfl, rfl⟩
  | some fid =>
      rw [h] at hq
      rcases List.mem_map.mp hq with ⟨x, hx, hfx⟩
      by_cases hxid : x.id = pid
      · rw [← hfx, if_pos hxid]
        exact ⟨x, hx, rfl, rfl, rfl⟩
      · rw [← hfx, if_neg hxid]
        exact ⟨x, hx, rfl, rfl, rfl⟩

/-- Claim C9: whenever a Payment row matches the completed session, the
session-completed handler unconditionally overwrites that row's status with
`succeeded` (retrieved intent status `'succeeded'`) or `'pending'` (any
other retrieved status) — never `failed`/`canceled` — so a Payment
currently in a terminal failure state is silently moved back to `pending`
by a session-completed event whose intent is not succeeded. -/
theorem claim_c9_status_overwrite (env : WebhookEnv) (st : Store)
    (s : SessionObj) (payment : PaymentRow)
    (h : uniqueFind st.payments (fun p => p.sessionId = s.id) = some payment) :
    ∀ q ∈ (handleSessionCompleted env st s).payments, q.id = payment.id →
      q.status = (if retrievedIntentStatus env s = some "succeeded"
          then PayStatus.succeeded else PayStatus.pending) ∧
      (q.status = PayStatus.succeeded ∨ q.status = PayStatus.pending) := by
  intro q hq hid
  have hstat : q.status = (if retrievedIntentStatus env s = some "succeeded"
      then PayStatus.succeeded else PayStatus.pending) := by
    simp only [handleSessionCompleted, h] at hq
    by_cases hcond : retrievedIntentStatus env s = some "succeeded" ∧
        strTruthy s.metadata.userId = true
    · rw [if_pos hcond] at hq
      by_cases hp0 : (parsedProductIds s.metadata).length = 0
      · rw [if_pos hp0] at hq
        exact mem_scPaymentUpdate env s payment.id st.payments q hq hid
      · rw [if_neg hp0] at hq
        simp only at hq
        rcases mem_backLink payment.id _ _ q hq with ⟨x, hx, hstat, hid2, _⟩
        rw [hstat]
        exact mem_scPaymentUpdate env s payment.id st.payments x hx
          (by rw [← hid2]; exact hid)
    · rw [if_neg hcond] at hq
      exact mem_scPaymentUpdate env s payment.id st.payments q hq hid
  refine ⟨hstat, ?_⟩
  rw [hstat]
  by_cases hI : retrievedIntentStatus env s = some "succeeded"
  · rw [if_pos hI]; exact Or.inl rfl
  · rw [if_neg hI]; exact Or.inr rfl

/-- Webhook environment in which the payment intent is not yet succeeded. -/
def wenvPend : WebhookEnv :=
  { intentStatus := fun _ => "requires_payment_method"
    mac := fun k b => String.append k b
    webhookSecret := "w"
    parseEvent := fun _ => StripeEvent.otherEvent "x" }

/-- A payment already in the terminal failure state. -/
def payFailed : PaymentRow :=
  { id := 1, userId := "u1", sessionId := "cs_1", intentId := some "pi_1",
    customerId := some "cus_1", amount := 10, status := PayStatus.failed,
    productIdField := "1", meta := ⟨none, none, none⟩, purchaseId := none }

def sessC9 : SessionObj :=
  { id := "cs_1", paymentIntent := some "pi_1",
    metadata := { userId := some "u1", productIds := some "1",
                  productId := none, productTitles := none } }

def storeC9 : Store :=
  { products := [], payments := [payFailed], purchases := [], profiles := [],
    purchasesHasSessionCol := true, nextPaymentId := 2, nextPurchaseId := 0 }

/-- The row as rewritten by the handler. -/
def payC9After : PaymentRow :=
  { payFailed with intentId := some "pi_1", status := PayStatus.pending }

theorem claim_c9_witness :
    payFailed.status = PayStatus.failed ∧
    retrievedIntentStatus wenvPend sessC9 ≠ some "succeeded" ∧
    (payC9After.status
        = (if retrievedIntentStatus wenvPend sessC9 = some "succeeded"
            then PayStatus.succeeded else PayStatus.pending) ∧
      (payC9After.status = PayStatus.succeeded ∨
        payC9After.status = PayStatus.pending)) ∧
    payC9After.status = PayStatus.pending :=
  ⟨rfl, by decide,
    claim_c9_status_overwrite wenvPend storeC9 sessC9 payFailed rfl payC9After
      (by decide) rfl,
    rfl⟩

/-! ## Claim C8: status reconciliation under reordering and duplication -/

/-- The final status the reconciler reports for a session. -/
def paymentStatusOf (st : Store) (sid : String) : Option PayStatus :=
  (uniqueFind st.payments (fun p => p.sessionId = sid)).map (fun p => p.status)

theorem backLink_shape (pid : Nat) (ids : List Nat) (l : List PaymentRow) :
    ∃ g : PaymentRow → PaymentRow, backLink pid ids l = l.map g ∧
      ∀ q, (g q).sessionId = q.sessionId ∧ (g q).status = q.status ∧
        (g q).id = q.id ∧ (g q).amount = q.amount ∧ (g q).meta = q.meta := by
  unfold backLink
  cases ids.head? with
  | none => exact ⟨id, by simp, fun q => ⟨rfl, rfl, rfl, rfl, rfl⟩⟩
  | some fid =>
      refine ⟨fun q => if q.id = pid then { q with purchaseId := some fid } else q,
        rfl, fun q => ?_⟩
      by_cases hq : q.id = pid
      · simp [hq]
      · simp [hq]

theorem scRowUpdate_sessionId (env : WebhookEnv) (s : SessionObj) (pid : Nat)
    (q : PaymentRow) : (scRowUpdate env s pid q).sessionId = q.sessionId := by
  unfold scRowUpdate
  by_cases hq : q.id = pid
  · rw [if_pos hq]
  · rw [if_neg hq]

/-- Every payments list produced by the session-completed handler on a
matched payment is the original list pushed through the status update and a
status/session-preserving back-link map. -/
theorem handleSC_payments_char (env : WebhookEnv) (st : Store) (s : SessionObj)
    (payment : PaymentRow)
    (h : uniqueFind st.payments (fun p => p.sessionId = s.id) = some payment) :
    ∃ g : PaymentRow → PaymentRow,
      (handleSessionCompleted env st s).payments
        = st.payments.map (fun x => g (scRowUpdate env s payment.id x)) ∧
      ∀ q, (g q).sessionId = q.sessionId ∧ (g q).status = q.status ∧
        (g q).id = q.id ∧ (g q).amount = q.amount ∧ (g q).meta = q.meta := by
  by_cases hcond : retrievedIntentStatus env s = some "succeeded" ∧
      strTruthy s.metadata.userId = true
  · by_cases hp0 : (parsedProductIds s.metadata).length = 0
    · refine ⟨id, ?_, fun q => ⟨rfl, rfl, rfl, rfl, rfl⟩⟩
      simp only [handleSessionCompleted, h, if_pos hcond, if_pos hp0,
        scPaymentUpdate]
      rfl
    · rcases backLink_shape payment.id
          (matRun (scParams st s payment (parsedProductIds s.metadata))
            ⟨st.purchases, st.nextPurchaseId, []⟩ 0
            (parsedProductIds s.metadata)).createdIds
          (scPaymentUpdate env s payment.id st.payments)
        with ⟨g, hg, hgp⟩
      refine ⟨g, ?_, fun q => (hgp q)⟩
      simp only [handleSessionCompleted, h, if_pos hcond, if_neg hp0]
      rw [hg]
      simp only [scPaymentUpdate, List.map_map]
      rfl
  · refine ⟨id, ?_, fun q => ⟨rfl, rfl, rfl, rfl, rfl⟩⟩
    simp only [handleSessionCompleted, h, if_neg hcond, scPaymentUpdate]
    rfl

theorem dispatch_payments_shape (env : WebhookEnv) (st : Store)
    (e : StripeEvent) :
    ∃ f : PaymentRow → PaymentRow,
      (dispatchEvent env st e).payments = st.payments.map f ∧
      ∀ q, (f q).sessionId = q.sessionId := by
  cases e with
  | otherEvent t => exact ⟨id, by simp [dispatchEvent], fun q => rfl⟩
  | paymentIntentSucceeded pid =>
      refine ⟨fun q => if q.intentId = some pid then
          { q with intentId := some pid, status := PayStatus.succeeded }
        else q, rfl, fun q => ?_⟩
      by_cases hq : q.intentId = some pid
      · simp [hq]
      · simp [hq]
  | paymentIntentFailed pid =>
      refine ⟨fun q => if q.intentId = some pid then
          { q with intentId := some pid, status := PayStatus.failed }
        else q, rfl, fun q => ?_⟩
      by_cases hq : q.intentId = some pid
      · simp [hq]
      · simp [hq]
  | checkoutSessionCompleted s =>
      cases h : uniqueFind st.payments (fun p => p.sessionId = s.id) with
      | none =>
          refine ⟨id, ?_, fun q => rfl⟩
          simp [dispatchEvent, handleSessionCompleted, h]
      | some payment =>
          rcases handleSC_payments_char env st s payment h with ⟨g, hmap, hgp⟩
          refine ⟨fun x => g (scRowUpdate env s payment.id x), hmap, fun q => ?_⟩
          rw [(hgp _).1, scRowUpdate_sessionId]

theorem dispatch_sid_count (env : WebhookEnv) (st : Store) (e : StripeEvent)
    (sid : String) :
    ((dispatchEvent env st e).payments.filter
        (fun p => p.sessionId = sid)).length
      = (st.payments.filter (fun p => p.sessionId = sid)).length := by
  rcases dispatch_payments_shape env st e with ⟨f, hmap, hsid⟩
  rw [hmap, filter_map_of_pres f _ (fun x => by simp [hsid x])]
  simp

/-- The invariant: every payment row of the session already carries the
terminal success status. -/
def succInv (st : Store) (sid : String) : Prop :=
  ∀ q ∈ st.payments, q.sessionId = sid → q.status = PayStatus.succeeded

theorem intentSucceeded_preserves (st : Store) (pid : String) (sid : String)
    (h : succInv st sid) : succInv (handleIntentSucceeded st pid) sid := by
  intro q hq hqs
  unfold handleIntentSucceeded at hq
  rcases List.mem_map.mp hq with ⟨x, hx, hfx⟩
  by_cases hxi : x.intentId = some pid
  · rw [← hfx, if_pos hxi]
  · rw [← hfx, if_neg hxi] at hqs ⊢
    exact h x hx hqs

theorem scRowUpdate_status (env : WebhookEnv) (s : SessionObj) (pid : Nat)
    (x : PaymentRow) (hret : retrievedIntentStatus env s = some "succeeded") :
    (scRowUpdate env s pid x).status = x.status ∨
    (scRowUpdate env s pid x).status = PayStatus.succeeded := by
  unfold scRowUpdate
  by_cases hq : x.id = pid
  · rw [if_pos hq]
    right
    simp [hret]
  · rw [if_neg hq]
    left
    rfl

theorem sc_preserves (env : WebhookEnv) (st : Store) (s : SessionObj)
    (pid : String) (hs1 : s.paymentIntent = some pid) (hs2 : pid ≠ "")
    (henv : env.intentStatus pid = "succeeded")
    (h : succInv st s.id) :
    succInv (handleSessionCompleted env st s) s.id := by
  have hret : retrievedIntentStatus env s = some "succeeded" := by
    simp only [retrievedIntentStatus, hs1]
    rw [if_pos hs2, henv]
  cases hu : uniqueFind st.payments (fun p => p.sessionId = s.id) with
  | none =>
      intro q hq hqs
      have : handleSessionCompleted env st s = st := by
        simp [handleSessionCompleted, hu]
      rw [this] at hq
      exact h q hq hqs
  | some payment =>
      intro q hq hqs
      rcases handleSC_payments_char env st s payment hu with ⟨g, hmap, hgp⟩
      rw [hmap] at hq
      rcases List.mem_map.mp hq with ⟨x, hx, hfx⟩
      have hsid : q.sessionId = x.sessionId := by
        rw [← hfx, (hgp _).1, scRowUpdate_sessionId]
      have hqstat : q.status = (scRowUpdate env s payment.id x).status := by
        rw [← hfx, (hgp _).2.1]
      rcases scRowUpdate_status env s payment.id x hret with hst | hst
      · rw [hqstat, hst]
        exact h x hx (by rw [← hsid]; exact hqs)
      · rw [hqstat, hst]

theorem sc_establishes (env : WebhookEnv) (st : Store) (s : SessionObj)
    (pid : String) (payment : PaymentRow)
    (hs1 : s.paymentIntent = some pid) (hs2 : pid ≠ "")
    (henv : env.intentStatus pid = "succeeded")
    (hu : uniqueFind st.payments (fun p => p.sessionId = s.id) = some payment) :
    succInv (handleSessionCompleted env st s) s.id := by
  have hret : retrievedIntentStatus env s = some "succeeded" := by
    simp only [retrievedIntentStatus, hs1]
    rw [if_pos hs2, henv]
  have hfilter : st.payments.filter (fun p => p.sessionId = s.id) = [payment] :=
    (uniqueFind_eq_some_iff _ _ _).mp hu
  intro q hq hqs
  rcases handleSC_payments_char env st s payment hu with ⟨g, hmap, hgp⟩
  rw [hmap] at hq
  rcases List.mem_map.mp hq with ⟨x, hx, hfx⟩
  have hsid : q.sessionId = x.sessionId := by
    rw [← hfx, (hgp _).1, scRowUpdate_sessionId]
  have hxsid : x.sessionId = s.id := by rw [← hsid]; exact hqs
  have hxmem : x ∈ st.payments.filter (fun p => p.sessionId = s.id) :=
    List.mem_filter.mpr ⟨hx, by simp [hxsid]⟩
  rw [hfilter] at hxmem
  have hxp : x = payment := by simpa using hxmem
  have hqstat : q.status = (scRowUpdate env s payment.id x).status := by
    rw [← hfx, (hgp _).2.1]
  rw [hqstat, hxp]
  unfold scRowUpdate
  rw [if_pos rfl]
  simp [hret]

/-- The event alphabet of the success scenario: the session's completion
event and its intent's success event, in any order and multiplicity. -/
def evOkC8 (s : SessionObj) (pid : String) (e : StripeEvent) : Prop :=
  e = StripeEvent.checkoutSessionCompleted s ∨
  e = StripeEvent.paymentIntentSucceeded pid

instance (s : SessionObj) (pid : String) (e : StripeEvent) :
    Decidable (evOkC8 s pid e) := by
  unfold evOkC8
  infer_instance

theorem runEvents_sid_count (env : WebhookEnv) :
    ∀ (evs : List StripeEvent) (st : Store) (sid : String),
      ((runEvents env st evs).payments.filter
          (fun p => p.sessionId = sid)).length
        = (st.payments.filter (fun p => p.sessionId = sid)).length := by
  intro evs
  induction evs with
  | nil => intro st sid; rfl
  | cons e rest ih =>
      intro st sid
      rw [runEvents, ih]
      exact dispatch_sid_count env st e sid

theorem runEvents_succInv (env : WebhookEnv) (s : SessionObj) (pid : String)
    (hs1 : s.paymentIntent = some pid) (hs2 : pid ≠ "")
    (henv : env.intentStatus pid = "succeeded") :
    ∀ (evs : List StripeEvent) (st : Store),
      (∀ e ∈ evs, evOkC8 s pid e) →
      (st.payments.filter (fun p => p.sessionId = s.id)).length = 1 →
      (succInv st s.id ∨ StripeEvent.checkoutSessionCompleted s ∈ evs) →
      succInv (runEvents env st evs) s.id := by
  intro evs
  induction evs with
  | nil =>
      intro st _ _ hd
      rcases hd with h | h
      · exact h
      · simp at h
  | cons e rest ih =>
      intro st hok hcount hd
      rw [runEvents]
      have hokrest : ∀ x ∈ rest, evOkC8 s pid x :=
        fun x hx => hok x (List.mem_cons_of_mem e hx)
      have hcount' : ((dispatchEvent env st e).payments.filter
          (fun p => p.sessionId = s.id)).length = 1 := by
        rw [dispatch_sid_count]
        exact hcount
      rcases hok e (List.mem_cons_self e rest) with he | he
      · subst he
        apply ih _ hokrest hcount'
        left
        rcases List.length_eq_one.mp hcount with ⟨payment, hp⟩
        exact sc_establishes env st s pid payment hs1 hs2 henv
          ((uniqueFind_eq_some_iff _ _ _).mpr hp)
      · subst he
        rcases hd with hinv | hmem
        · exact ih _ hokrest hcount'
            (Or.inl (intentSucceeded_preserves st pid s.id hinv))
        · rcases List.mem_cons.mp hmem with hc | hc
          · cases hc
          · exact ih _ hokrest hcount' (Or.inr hc)

/-- Claim C8 (amended): for an intent whose terminal status is *succeeded*,
the reconciler is correct under arbitrary reordering and duplication of the
session-completed and intent-succeeded events: as long as the
session-completed event is delivered at least once and exactly one Payment
row carries the session id, the final status is `succeeded`.  (The claim's
symmetric guarantee for *failed* intents is false — see the counterexample:
an intent-failed event delivered before the session-completed event matches
no Payment row because the intent id has not been stored yet, and the later
session-completed write leaves the final status at `pending`.) -/
theorem claim_c8_final_status_succeeded (env : WebhookEnv) (st : Store)
    (s : SessionObj) (pid : String) (evs : List StripeEvent)
    (hs1 : s.paymentIntent = some pid) (hs2 : pid ≠ "")
    (henv : env.intentStatus pid = "succeeded")
    (hcount : (st.payments.filter (fun p => p.sessionId = s.id)).length = 1)
    (hok : ∀ e ∈ evs, evOkC8 s pid e)
    (hsc : StripeEvent.checkoutSessionCompleted s ∈ evs) :
    paymentStatusOf (runEvents env st evs) s.id = some PayStatus.succeeded := by
  have hinv := runEvents_succInv env s pid hs1 hs2 henv evs st hok hcount
    (Or.inr hsc)
  have hcnt : ((runEvents env st evs).payments.filter
      (fun p => p.sessionId = s.id)).length = 1 := by
    rw [runEvents_sid_count]
    exact hcount
  rcases List.length_eq_one.mp hcnt with ⟨x, hx⟩
  have hufind := (uniqueFind_eq_some_iff
    (runEvents env st evs).payments (fun p => decide (p.sessionId = s.id)) x).mpr hx
  have hxf : x ∈ (runEvents env st evs).payments.filter
      (fun p => p.sessionId = s.id) := by
    rw [hx]
    exact List.mem_singleton.mpr rfl
  have hxmem : x ∈ (runEvents env st evs).payments := (List.mem_filter.mp hxf).1
  have hxsid : x.sessionId = s.id := by
    have := (List.mem_filter.mp hxf).2
    simpa using this
  unfold paymentStatusOf
  rw [hufind]
  simp [hinv x hxmem hxsid]

/-- A freshly created pending payment: the intent id is not stored yet. -/
def payPendC8 : PaymentRow :=
  { id := 1, userId := "u1", sessionId := "cs_1", intentId := none,
    customerId := some "cus_1", amount := 10, status := PayStatus.pending,
    productIdField := "1", meta := ⟨none, none, none⟩, purchaseId := none }

def storeC8 : Store :=
  { products := [], payments := [payPendC8], purchases := [], profiles := [],
    purchasesHasSessionCol := true, nextPaymentId := 2, nextPurchaseId := 0 }

/-- Claim C8 counterexample: the payment intent's terminal status is failed
(`requires_payment_method` at retrieval time, a failed-payment event
delivered), yet delivering `payment_intent.payment_failed` *before*
`checkout.session.completed` leaves the final Payment.status at `pending`:
the failed event matches no row (the intent id is only stored by the
session-completed handler) and the session-completed handler then writes
`pending`.  The final status does not equal the intent's true terminal
status `failed`. -/
theorem claim_c8_counterexample :
    paymentStatusOf (runEvents wenvPend storeC8
        [StripeEvent.paymentIntentFailed "pi_1",
         StripeEvent.checkoutSessionCompleted sessC9]) "cs_1"
      = some PayStatus.pending ∧
    (some PayStatus.pending ≠ some PayStatus.failed) :=
  ⟨rfl, by decide⟩

/-- A webhook environment whose intent retrieval reports success. -/
def wenvSucc : WebhookEnv :=
  { intentStatus := fun _ => "succeeded"
    mac := fun k b => String.append k b
    webhookSecret := "w"
    parseEvent := fun _ => StripeEvent.otherEvent "x" }

theorem claim_c8_witness :
    sessC9.paymentIntent = some "pi_1" ∧
    wenvSucc.intentStatus "pi_1" = "succeeded" ∧
    (storeC8.payments.filter (fun p => p.sessionId = sessC9.id)).length = 1 ∧
    paymentStatusOf (runEvents wenvSucc storeC8
        [StripeEvent.paymentIntentSucceeded "pi_1",
         StripeEvent.checkoutSessionCompleted sessC9,
         StripeEvent.checkoutSessionCompleted sessC9]) sessC9.id
      = some PayStatus.succeeded :=
  ⟨rfl, rfl, by decide,
    claim_c8_final_status_succeeded wenvSucc storeC8 sessC9 "pi_1"
      [StripeEvent.paymentIntentSucceeded "pi_1",
       StripeEvent.checkoutSessionCompleted sessC9,
       StripeEvent.checkoutSessionCompleted sessC9]
      rfl (by decide) rfl (by decide) (by decide) (by decide)⟩

/-! ## Claim C1: idempotent purchase materialization -/

/-- Number of purchase rows carrying a given
(`userId`, `productId`, `sessionId`) triple. -/
def purchaseCount (l : List PurchaseRow) (u p sd : String) : Nat :=
  (l.filter (purchaseKey u p sd)).length

/-- The claimed invariant: at most one purchase row per triple. -/
def atMostOnePerTriple (l : List PurchaseRow) : Prop :=
  ∀ u p sd, purchaseCount l u p sd ≤ 1

theorem purchaseCount_append (l : List PurchaseRow) (r : PurchaseRow)
    (u p sd : String) :
    purchaseCount (l ++ [r]) u p sd
      = purchaseCount l u p sd
        + (if purchaseKey u p sd r = true then 1 else 0) := by
  unfold purchaseCount
  rw [List.filter_append]
  by_cases h : purchaseKey u p sd r = true
  · simp [h]
  · simp only [Bool.not_eq_true] at h
    simp [h]

theorem purchaseKey_stepRow (P : MatParams) (st : MatState) (i : Nat)
    (rawPid : String) (hCol : P.hasCol = true) (u p sd : String) :
    purchaseKey u p sd (stepRow P st i rawPid) = true ↔
      (P.userId = u ∧ (jsTrim rawPid) = p ∧ P.sessionId = sd) := by
  simp [purchaseKey, stepRow, hCol, and_assoc]

theorem materializeStep_skip (P : MatParams) (st : MatState) (i : Nat)
    (rawPid : String)
    (h : P.lookup (jsTrim rawPid) = none ∧
      resolvedPrice P (P.lookup (jsTrim rawPid)) = 0) :
    materializeStep P st i rawPid = st := by
  simp only [materializeStep]
  rw [if_pos h]

theorem materializeStep_existing (P : MatParams) (st : MatState) (i : Nat)
    (rawPid : String) (hCol : P.hasCol = true)
    (h : purchaseCount st.purchases P.userId (jsTrim rawPid) P.sessionId = 1) :
    materializeStep P st i rawPid = st := by
  have hsome : (uniqueFind st.purchases
      (purchaseKey P.userId (jsTrim rawPid) P.sessionId)).isSome = true :=
    (uniqueFind_isSome_iff _ _).mpr h
  simp only [materializeStep, hCol, if_true]
  by_cases hskip : P.lookup (jsTrim rawPid) = none ∧
      resolvedPrice P (P.lookup (jsTrim rawPid)) = 0
  · rw [if_pos hskip]
  · rw [if_neg hskip, if_pos hsome]

theorem materializeStep_insert (P : MatParams) (st : MatState) (i : Nat)
    (rawPid : String) (hCol : P.hasCol = true)
    (hns : ¬(P.lookup (jsTrim rawPid) = none ∧
      resolvedPrice P (P.lookup (jsTrim rawPid)) = 0))
    (hcnt : purchaseCount st.purchases P.userId (jsTrim rawPid) P.sessionId ≠ 1) :
    materializeStep P st i rawPid
      = { purchases := st.purchases ++ [stepRow P st i rawPid]
          nextId := st.nextId + 1
          createdIds := st.createdIds ++ [st.nextId] } := by
  have hnone : (uniqueFind st.purchases
      (purchaseKey P.userId (jsTrim rawPid) P.sessionId)).isSome = false := by
    rcases Bool.eq_false_or_eq_true ((uniqueFind st.purchases
        (purchaseKey P.userId (jsTrim rawPid) P.sessionId)).isSome) with ht | hf
    · exact absurd ((uniqueFind_isSome_iff _ _).mp ht) hcnt
    · exact hf
  simp only [materializeStep, hCol, if_true]
  rw [if_neg hns, hnone]
  simp

/-- Through the purchase loop (good schema): the at-most-one invariant is
preserved, counts never decrease, and every processed product id ends
either skipped-for-price or with exactly one matching purchase row. -/
theorem matRun_bounded_hit (P : MatParams) (hCol : P.hasCol = true) :
    ∀ (pids : List String) (st : MatState) (i : Nat),
      atMostOnePerTriple st.purchases →
      atMostOnePerTriple (matRun P st i pids).purchases ∧
      (∀ u p sd, purchaseCount st.purchases u p sd
          ≤ purchaseCount (matRun P st i pids).purchases u p sd) ∧
      (∀ x ∈ pids,
        (P.lookup (jsTrim x) = none ∧ resolvedPrice P (P.lookup (jsTrim x)) = 0) ∨
        purchaseCount (matRun P st i pids).purchases
            P.userId (jsTrim x) P.sessionId = 1) := by
  intro pids
  induction pids with
  | nil =>
      intro st i hb
      exact ⟨hb, fun u p sd => le_refl _, by simp⟩
  | cons x rest ih =>
      intro st i hb
      rw [matRun]
      by_cases hskip : P.lookup (jsTrim x) = none ∧
          resolvedPrice P (P.lookup (jsTrim x)) = 0
      · rw [materializeStep_skip P st i x hskip]
        rcases ih st (i + 1) hb with ⟨b1, b2, b3⟩
        refine ⟨b1, b2, ?_⟩
        intro y hy
        rcases List.mem_cons.mp hy with heq | hy2
        · rw [heq]
          exact Or.inl hskip
        · exact b3 y hy2
      · by_cases hcnt : purchaseCount st.purchases P.userId (jsTrim x) P.sessionId = 1
        · rw [materializeStep_existing P st i x hCol hcnt]
          rcases ih st (i + 1) hb with ⟨b1, b2, b3⟩
          refine ⟨b1, b2, ?_⟩
          intro y hy
          rcases List.mem_cons.mp hy with heq | hy2
          · rw [heq]
            right
            have hle := b2 P.userId (jsTrim x) P.sessionId
            have hup := b1 P.userId (jsTrim x) P.sessionId
            omega
          · exact b3 y hy2
        · rw [materializeStep_insert P st i x hCol hskip hcnt]
          have hb0 := hb P.userId (jsTrim x) P.sessionId
          have hb' : atMostOnePerTriple
              (st.purchases ++ [stepRow P st i x]) := by
            intro u p sd
            rw [purchaseCount_append]
            by_cases hk : purchaseKey u p sd (stepRow P st i x) = true
            · rcases (purchaseKey_stepRow P st i x hCol u p sd).mp hk
                with ⟨h1, h2, h3⟩
              subst h1; subst h2; subst h3
              unfold purchaseCount at hb0 hcnt ⊢
              simp only [hk, if_true]
              omega
            · simp only [hk, if_false]
              simpa using hb u p sd
          rcases ih ⟨st.purchases ++ [stepRow P st i x], st.nextId + 1,
              st.createdIds ++ [st.nextId]⟩ (i + 1) hb' with ⟨b1, b2, b3⟩
          refine ⟨b1, ?_, ?_⟩
          · intro u p sd
            refine le_trans ?_ (b2 u p sd)
            rw [purchaseCount_append]
            exact Nat.le_add_right _ _
          · intro y hy
            rcases List.mem_cons.mp hy with heq | hy2
            · rw [heq]
              right
              have hcnt1 : purchaseCount
                  (st.purchases ++ [stepRow P st i x]) P.userId (jsTrim x)
                  P.sessionId = 1 := by
                rw [purchaseCount_append]
                have hk : purchaseKey P.userId (jsTrim x) P.sessionId
                    (stepRow P st i x) = true :=
                  (purchaseKey_stepRow P st i x hCol _ _ _).mpr ⟨rfl, rfl, rfl⟩
                simp only [hk, if_true]
                omega
              have hle : purchaseCount (st.purchases ++ [stepRow P st i x])
                    P.userId (jsTrim x) P.sessionId
                  ≤ purchaseCount (matRun P ⟨st.purchases ++ [stepRow P st i x],
                      st.nextId + 1, st.createdIds ++ [st.nextId]⟩ (i + 1)
                      rest).purchases P.userId (jsTrim x) P.sessionId :=
                b2 P.userId (jsTrim x) P.sessionId
              have hup := b1 P.userId (jsTrim x) P.sessionId
              omega
            · exact b3 y hy2

/-- If every product id of the list is already settled (skipped for price,
or exactly one matching purchase row), the loop is a no-op. -/
theorem matRun_fixpoint (P : MatParams) (hCol : P.hasCol = true) :
    ∀ (pids : List String) (st : MatState) (i : Nat),
      (∀ x ∈ pids,
        (P.lookup (jsTrim x) = none ∧ resolvedPrice P (P.lookup (jsTrim x)) = 0) ∨
        purchaseCount st.purchases P.userId (jsTrim x) P.sessionId = 1) →
      matRun P st i pids = st := by
  intro pids
  induction pids with
  | nil => intro st i _; rfl
  | cons x rest ih =>
      intro st i hfix
      rw [matRun]
      have hstep : materializeStep P st i x = st := by
        rcases hfix x (List.mem_cons_self x rest) with hskip | hcnt
        · exact materializeStep_skip P st i x hskip
        · exact materializeStep_existing P st i x hCol hcnt
      rw [hstep]
      exact ih st (i + 1) (fun y hy => hfix y (List.mem_cons_of_mem x hy))

theorem scRowUpdate_fields (env : WebhookEnv) (s : SessionObj) (pid : Nat)
    (q : PaymentRow) :
    (scRowUpdate env s pid q).id = q.id ∧
    (scRowUpdate env s pid q).amount = q.amount ∧
    (scRowUpdate env s pid q).meta = q.meta := by
  unfold scRowUpdate
  by_cases hq : q.id = pid
  · rw [if_pos hq]
    exact ⟨rfl, rfl, rfl⟩
  · rw [if_neg hq]
    exact ⟨rfl, rfl, rfl⟩

theorem handleSC_frame (env : WebhookEnv) (st : Store) (s : SessionObj) :
    (handleSessionCompleted env st s).products = st.products ∧
    (handleSessionCompleted env st s).purchasesHasSessionCol
      = st.purchasesHasSessionCol := by
  cases hu : uniqueFind st.payments (fun p => p.sessionId = s.id) with
  | none =>
      constructor <;> simp [handleSessionCompleted, hu]
  | some payment =>
      by_cases hcond : retrievedIntentStatus env s = some "succeeded" ∧
          strTruthy s.metadata.userId = true
      · by_cases hp0 : (parsedProductIds s.metadata).length = 0
        · constructor <;>
            (simp only [handleSessionCompleted, hu]; rw [if_pos hcond, if_pos hp0])
        · constructor <;>
            (simp only [handleSessionCompleted, hu]; rw [if_pos hcond, if_neg hp0])
      · constructor <;>
          (simp only [handleSessionCompleted, hu]; rw [if_neg hcond])

theorem handleSC_purchases_simple (env : WebhookEnv) (s : SessionObj)
    (h : ¬(retrievedIntentStatus env s = some "succeeded" ∧
        strTruthy s.metadata.userId = true)
      ∨ (parsedProductIds s.metadata).length = 0) :
    ∀ st : Store, (handleSessionCompleted env st s).purchases = st.purchases := by
  intro st
  cases hu : uniqueFind st.payments (fun p => p.sessionId = s.id) with
  | none => simp [handleSessionCompleted, hu]
  | some payment =>
      rcases h with hc | hp
      · simp only [handleSessionCompleted, hu]
        rw [if_neg hc]
      · by_cases hc : retrievedIntentStatus env s = some "succeeded" ∧
            strTruthy s.metadata.userId = true
        · simp only [handleSessionCompleted, hu]
          rw [if_pos hc, if_pos hp]
        · simp only [handleSessionCompleted, hu]
          rw [if_neg hc]

/-- Claim C1 (amended, good schema): when the deployed `purchases` schema
has the `stripe_checkout_session_id` column, the session-completed handler
preserves the at-most-one-Purchase-per-(userId, productId, sessionId)
invariant, and replaying the same event a second time creates no additional
Purchase rows (the purchase table after the replay equals the table after
the first processing).  Under schema drift the lookup-before-insert guard
is blind and the claim fails — see the counterexample. -/
theorem claim_c1_idempotent_good_schema (env : WebhookEnv) (st : Store)
    (s : SessionObj) (hCol : st.purchasesHasSessionCol = true)
    (hb : atMostOnePerTriple st.purchases) :
    atMostOnePerTriple (handleSessionCompleted env st s).purchases ∧
    (handleSessionCompleted env (handleSessionCompleted env st s) s).purchases
      = (handleSessionCompleted env st s).purchases := by
  cases hu : uniqueFind st.payments (fun p => p.sessionId = s.id) with
  | none =>
      have h1 : handleSessionCompleted env st s = st := by
        simp [handleSessionCompleted, hu]
      rw [h1]
      exact ⟨hb, by rw [h1]⟩
  | some payment =>
      rcases handleSC_payments_char env st s payment hu with ⟨g, hmap, hgp⟩
      have hpres : ∀ x : PaymentRow,
          (decide ((g (scRowUpdate env s payment.id x)).sessionId = s.id))
            = decide (x.sessionId = s.id) := by
        intro x
        rw [(hgp _).1, scRowUpdate_sessionId]
      have hu2 : uniqueFind (handleSessionCompleted env st s).payments
          (fun p => p.sessionId = s.id)
          = some (g (scRowUpdate env s payment.id payment)) := by
        rw [hmap]
        rw [uniqueFind_map_of_pres _ _ hpres, hu]
        rfl
      have hfid : (g (scRowUpdate env s payment.id payment)).id = payment.id := by
        rw [(hgp _).2.2.1, (scRowUpdate_fields env s payment.id payment).1]
      have hfam : (g (scRowUpdate env s payment.id payment)).amount
          = payment.amount := by
        rw [(hgp _).2.2.2.1, (scRowUpdate_fields env s payment.id payment).2.1]
      have hfmeta : (g (scRowUpdate env s payment.id payment)).meta
          = payment.meta := by
        rw [(hgp _).2.2.2.2, (scRowUpdate_fields env s payment.id payment).2.2]
      by_cases hcond : retrievedIntentStatus env s = some "succeeded" ∧
          strTruthy s.metadata.userId = true
      · by_cases hp0 : (parsedProductIds s.metadata).length = 0
        · have hsimple := handleSC_purchases_simple env s (Or.inr hp0)
          refine ⟨?_, ?_⟩
          · rw [hsimple st]
            exact hb
          · rw [hsimple (handleSessionCompleted env st s)]
        · -- the purchase loop runs
          have hColP : (scParams st s payment (parsedProductIds s.metadata)).hasCol
              = true := hCol
          have hms1 : (handleSessionCompleted env st s).purchases
              = (matRun (scParams st s payment (parsedProductIds s.metadata))
                  ⟨st.purchases, st.nextPurchaseId, []⟩ 0
                  (parsedProductIds s.metadata)).purchases ∧
              (handleSessionCompleted env st s).nextPurchaseId
              = (matRun (scParams st s payment (parsedProductIds s.metadata))
                  ⟨st.purchases, st.nextPurchaseId, []⟩ 0
                  (parsedProductIds s.metadata)).nextId := by
            simp only [handleSessionCompleted, hu]
            rw [if_pos hcond, if_neg hp0]
            exact ⟨rfl, rfl⟩
          rcases matRun_bounded_hit
              (scParams st s payment (parsedProductIds s.metadata)) hColP
              (parsedProductIds s.metadata)
              ⟨st.purchases, st.nextPurchaseId, []⟩ 0 hb with ⟨b1, b2, b3⟩
          refine ⟨?_, ?_⟩
          · rw [hms1.1]
            exact b1
          · have hPeq : scParams (handleSessionCompleted env st s) s
                (g (scRowUpdate env s payment.id payment))
                (parsedProductIds s.metadata)
                = scParams st s payment (parsedProductIds s.metadata) := by
              unfold scParams
              rw [(handleSC_frame env st s).1, (handleSC_frame env st s).2,
                hfam, hfmeta]
            have hms2 : ∀ st2 : Store,
                uniqueFind st2.payments (fun p => p.sessionId = s.id)
                  = some (g (scRowUpdate env s payment.id payment)) →
                (handleSessionCompleted env st2 s).purchases
                = (matRun (scParams st2 s
                      (g (scRowUpdate env s payment.id payment))
                      (parsedProductIds s.metadata))
                    ⟨st2.purchases, st2.nextPurchaseId, []⟩ 0
                    (parsedProductIds s.metadata)).purchases := by
              intro st2 hu'
              simp only [handleSessionCompleted, hu']
              rw [if_pos hcond, if_neg hp0]
            rw [hms2 (handleSessionCompleted env st s) hu2, hPeq, hms1.1,
              hms1.2]
            have hfix := matRun_fixpoint
              (scParams st s payment (parsedProductIds s.metadata)) hColP
              (parsedProductIds s.metadata)
              ⟨(matRun (scParams st s payment (parsedProductIds s.metadata))
                  ⟨st.purchases, st.nextPurchaseId, []⟩ 0
                  (parsedProductIds s.metadata)).purchases,
                (matRun (scParams st s payment (parsedProductIds s.metadata))
                  ⟨st.purchases, st.nextPurchaseId, []⟩ 0
                  (parsedProductIds s.metadata)).nextId, []⟩ 0 b3
            rw [hfix]
      · have hsimple := handleSC_purchases_simple env s (Or.inl hcond)
        refine ⟨?_, ?_⟩
        · rw [hsimple st]
          exact hb
        · rw [hsimple (handleSessionCompleted env st s)]

/-- The drift-schema store: the `purchases` table lacks the
`stripe_checkout_session_id` column, the very condition the retry path
exists for. -/
def storeC1Drift : Store :=
  { products := [], payments := [payPendC8], purchases := [], profiles := [],
    purchasesHasSessionCol := false, nextPaymentId := 2, nextPurchaseId := 0 }

/-- Claim C1 counterexample: on a drift-schema deployment (the schema the
retry path exists for), processing the same verified session-completed
event twice inserts a second Purchase row for the same user and product:
the idempotency lookup itself references the missing column, errors, and
its ignored data is null, so the guard never fires and each replay inserts
through the retry path.  The claim's "this holds … including those
inserted via the schema-drift retry path" is false. -/
theorem claim_c1_counterexample :
    (handleSessionCompleted wenvSucc storeC1Drift sessC9).purchases.length
        = 1 ∧
    (handleSessionCompleted wenvSucc
        (handleSessionCompleted wenvSucc storeC1Drift sessC9)
        sessC9).purchases.length = 2 ∧
    ((handleSessionCompleted wenvSucc
        (handleSessionCompleted wenvSucc storeC1Drift sessC9)
        sessC9).purchases.map
          (fun r => (r.userId, r.productId, r.sessionId)))
      = [("u1", "1", none), ("u1", "1", none)] :=
  ⟨by decide, by decide, by decide⟩

theorem claim_c1_witness :
    storeC8.purchasesHasSessionCol = true ∧
    atMostOnePerTriple storeC8.purchases ∧
    (atMostOnePerTriple
        (handleSessionCompleted wenvSucc storeC8 sessC9).purchases ∧
      (handleSessionCompleted wenvSucc
          (handleSessionCompleted wenvSucc storeC8 sessC9) sessC9).purchases
        = (handleSessionCompleted wenvSucc storeC8 sessC9).purchases) :=
  ⟨rfl, fun u p sd => by simp [purchaseCount, storeC8],
    claim_c1_idempotent_good_schema wenvSucc storeC8 sessC9 rfl
      (fun u p sd => by simp [purchaseCount, storeC8])⟩

/-! ## Claim C6: per-product pricing in multi-product sessions -/

theorem stepRow_productId (P : MatParams) (st : MatState) (i : Nat)
    (rawPid : String) : (stepRow P st i rawPid).productId = jsTrim rawPid := rfl

theorem stepRow_price (P : MatParams) (st : MatState) (i : Nat)
    (rawPid : String) :
    (stepRow P st i rawPid).price = resolvedPrice P (P.lookup (jsTrim rawPid)) :=
  rfl

/-- Through the purchase loop with a non-singleton product list whose
trimmed, distinct ids have no pre-existing purchases and only nonzero
catalog prices: exactly one row is appended per catalog-resolved product,
priced at that product's own catalog price, and products the catalog does
not resolve are skipped (no row at all, in particular no price-0 row). -/
theorem matRun_resolved (P : MatParams) (hCol : P.hasCol = true)
    (hN : P.numProducts ≠ 1) :
    ∀ (pids : List String) (st : MatState) (i : Nat),
      (∀ x ∈ pids, jsTrim x = x) →
      pids.Nodup →
      (∀ x ∈ pids, ∀ r, P.lookup x = some r → r.price ≠ 0) →
      (∀ x ∈ pids, purchaseCount st.purchases P.userId x P.sessionId = 0) →
      (matRun P st i pids).purchases.map (fun r => (r.productId, r.price))
        = st.purchases.map (fun r => (r.productId, r.price))
          ++ pids.filterMap
              (fun x => (P.lookup x).map (fun r => (x, r.price))) := by
  intro pids
  induction pids with
  | nil =>
      intro st i _ _ _ _
      simp [matRun]
  | cons x rest ih =>
      intro st i htr hnd hpz hcnt
      have htrx : jsTrim x = x := htr x (List.mem_cons_self x rest)
      rw [matRun]
      cases hl : P.lookup x with
      | none =>
          have hskip : P.lookup (jsTrim x) = none ∧
              resolvedPrice P (P.lookup (jsTrim x)) = 0 := by
            rw [htrx, hl]
            refine ⟨rfl, ?_⟩
            simp only [resolvedPrice]
            rw [if_neg hN]
          rw [materializeStep_skip P st i x hskip]
          rw [ih st (i + 1) (fun y hy => htr y (List.mem_cons_of_mem x hy))
            (List.nodup_cons.mp hnd).2
            (fun y hy => hpz y (List.mem_cons_of_mem x hy))
            (fun y hy => hcnt y (List.mem_cons_of_mem x hy))]
          rw [List.filterMap_cons]
          simp [hl]
      | some r =>
          have hr0 : r.price ≠ 0 := hpz x (List.mem_cons_self x rest) r hl
          have hns : ¬(P.lookup (jsTrim x) = none ∧
              resolvedPrice P (P.lookup (jsTrim x)) = 0) := by
            rw [htrx, hl]
            rintro ⟨h, -⟩
            cases h
          have hcx : purchaseCount st.purchases P.userId (jsTrim x)
              P.sessionId ≠ 1 := by
            rw [htrx, hcnt x (List.mem_cons_self x rest)]
            omega
          rw [materializeStep_insert P st i x hCol hns hcx]
          have hrowpid : (stepRow P st i x).productId = x := by
            rw [stepRow_productId, htrx]
          have hrowprice : (stepRow P st i x).price = r.price := by
            rw [stepRow_price, htrx, hl]
            simp only [resolvedPrice]
            rw [if_neg hr0]
          have hcnt2 : ∀ y ∈ rest,
              purchaseCount (st.purchases ++ [stepRow P st i x]) P.userId y
                P.sessionId = 0 := by
            intro y hy
            rw [purchaseCount_append]
            have hky : ¬ purchaseKey P.userId y P.sessionId
                (stepRow P st i x) = true := by
              intro hk
              rcases (purchaseKey_stepRow P st i x hCol _ _ _).mp hk
                with ⟨-, h2, -⟩
              rw [htrx] at h2
              exact (List.nodup_cons.mp hnd).1 (h2 ▸ hy)
            simp only [Bool.not_eq_true] at hky
            rw [hky]
            simp only [Bool.false_eq_true, if_false, Nat.add_zero]
            exact hcnt y (List.mem_cons_of_mem x hy)
          have ihr := ih ⟨st.purchases ++ [stepRow P st i x], st.nextId + 1,
              st.createdIds ++ [st.nextId]⟩ (i + 1)
            (fun y hy => htr y (List.mem_cons_of_mem x hy))
            (List.nodup_cons.mp hnd).2
            (fun y hy => hpz y (List.mem_cons_of_mem x hy)) hcnt2
          rw [ihr]
          rw [List.filterMap_cons]
          simp only [hl, Option.map_some']
          rw [List.map_append, List.append_assoc]
          congr 1
          simp [hrowpid, hrowprice]

/-- Claim C6 (amended): (a) for a successful multi-product session (two or
more trimmed, distinct product ids) with no pre-existing purchases and
whose catalog-resolved entries all carry a nonzero price, the reconciler
appends exactly one Purchase per catalog-resolved product, each priced at
that product's own catalog price (never a split of the total), and appends
*nothing* for a product the catalog does not resolve (skipped and logged,
no price-0 row); (b) the recorded total amount is used as the price exactly
in the single-product fallback (`numProducts = 1`, product not in the
catalog, nonzero amount).  The claim's unrestricted "no Purchase row with
price 0" is false: a product *present* in the catalog with price 0 in a
multi-product session is not skipped and yields a price-0 Purchase row —
see the counterexample. -/
theorem claim_c6_per_product_pricing :
    (∀ (env : WebhookEnv) (st : Store) (s : SessionObj) (payment : PaymentRow),
      st.purchasesHasSessionCol = true →
      uniqueFind st.payments (fun p => p.sessionId = s.id) = some payment →
      retrievedIntentStatus env s = some "succeeded" →
      strTruthy s.metadata.userId = true →
      2 ≤ (parsedProductIds s.metadata).length →
      (∀ x ∈ parsedProductIds s.metadata, jsTrim x = x) →
      (parsedProductIds s.metadata).Nodup →
      (∀ x ∈ parsedProductIds s.metadata, ∀ r,
        catalogInfo st.products (parsedProductIds s.metadata) x = some r →
        r.price ≠ 0) →
      (∀ x ∈ parsedProductIds s.metadata,
        purchaseCount st.purchases (s.metadata.userId.getD "") x s.id = 0) →
      (handleSessionCompleted env st s).purchases.map
          (fun r => (r.productId, r.price))
        = st.purchases.map (fun r => (r.productId, r.price))
          ++ (parsedProductIds s.metadata).filterMap
              (fun x => (catalogInfo st.products (parsedProductIds s.metadata)
                  x).map (fun r => (x, r.price)))) ∧
    (∀ (P : MatParams) (st : MatState) (i : Nat) (x : String),
      P.hasCol = true → P.numProducts = 1 → P.lookup (jsTrim x) = none →
      P.payAmount ≠ 0 →
      purchaseCount st.purchases P.userId (jsTrim x) P.sessionId ≠ 1 →
      (materializeStep P st i x).purchases
          = st.purchases ++ [stepRow P st i x] ∧
      (stepRow P st i x).price = P.payAmount) := by
  constructor
  · intro env st s payment hCol hu hc1 hc2 hn htr hnd hpz hcnt
    have hcond : retrievedIntentStatus env s = some "succeeded" ∧
        strTruthy s.metadata.userId = true := ⟨hc1, hc2⟩
    have hp0 : ¬ (parsedProductIds s.metadata).length = 0 := by omega
    have hms1 : (handleSessionCompleted env st s).purchases
        = (matRun (scParams st s payment (parsedProductIds s.metadata))
            ⟨st.purchases, st.nextPurchaseId, []⟩ 0
            (parsedProductIds s.metadata)).purchases := by
      simp only [handleSessionCompleted, hu]
      rw [if_pos hcond, if_neg hp0]
    rw [hms1]
    have hColP : (scParams st s payment (parsedProductIds s.metadata)).hasCol
        = true := hCol
    have hNP : (scParams st s payment (parsedProductIds s.metadata)).numProducts
        ≠ 1 := by
      show (parsedProductIds s.metadata).length ≠ 1
      omega
    exact matRun_resolved (scParams st s payment (parsedProductIds s.metadata))
      hColP hNP (parsedProductIds s.metadata)
      ⟨st.purchases, st.nextPurchaseId, []⟩ 0 htr hnd hpz hcnt
  · intro P st i x hCol hone hl ha hcnt
    have hns : ¬(P.lookup (jsTrim x) = none ∧
        resolvedPrice P (P.lookup (jsTrim x)) = 0) := by
      rintro ⟨-, h2⟩
      rw [hl] at h2
      simp only [resolvedPrice] at h2
      rw [if_pos hone] at h2
      exact ha h2
    refine ⟨?_, ?_⟩
    · rw [materializeStep_insert P st i x hCol hns hcnt]
    · rw [stepRow_price, hl]
      simp only [resolvedPrice]
      rw [if_pos hone]

def catA : CatalogRow :=
  { stripeProductId := "A", stripePriceId := none, name := "Prod A",
    description := some "dA", price := 10, currency := "eur",
    category := "cat", imageUrl := some "iA", active := true }

def catB : CatalogRow :=
  { catA with stripeProductId := "B", name := "Prod B", price := 25 }

/-- A catalog row whose price resolution failed (`unitPrice = 0`, the state
Catalog Sync leaves after a failed price lookup). -/
def catZ : CatalogRow :=
  { catA with stripeProductId := "Z", name := "Prod Z", price := 0 }

def sessC6AB : SessionObj :=
  { id := "cs_1", paymentIntent := some "pi_1",
    metadata := { userId := some "u1", productIds := some "A,B",
                  productId := none, productTitles := none } }

def sessC6AZ : SessionObj :=
  { id := "cs_1", paymentIntent := some "pi_1",
    metadata := { userId := some "u1", productIds := some "A,Z",
                  productId := none, productTitles := none } }

def payC6 : PaymentRow :=
  { id := 1, userId := "u1", sessionId := "cs_1", intentId := none,
    customerId := some "cus_1", amount := 35, status := PayStatus.pending,
    productIdField := "A,B", meta := ⟨none, none, none⟩, purchaseId := none }

def storeC6AB : Store :=
  { products := [catA, catB], payments := [payC6], purchases := [],
    profiles := [], purchasesHasSessionCol := true, nextPaymentId := 2,
    nextPurchaseId := 0 }

def storeC6AZ : Store := { storeC6AB with products := [catA, catZ] }

/-- Claim C6 counterexample: in the two-product session `"A,Z"` where `Z`
is in the catalog with price 0 (neither the catalog nor the snapshot yields
a usable price — the code itself treats 0 as no price via `||`), the
product is *not* skipped: a Purchase row with price 0 is created for it,
because the skip guard (line 416) additionally requires the product to be
absent from the catalog. -/
theorem claim_c6_counterexample :
    2 ≤ (parsedProductIds sessC6AZ.metadata).length ∧
    catZ.price = 0 ∧
    (handleSessionCompleted wenvSucc storeC6AZ sessC6AZ).purchases.map
        (fun r => (r.productId, r.price))
      = [("A", 10), ("Z", 0)] :=
  ⟨by decide, rfl, by decide⟩

def infoA : ProdInfo :=
  { id := "A", title := "Prod A", description := "dA", price := 10,
    category := "cat", imageUrl := "iA" }

def infoB : ProdInfo :=
  { id := "B", title := "Prod B", description := "dA", price := 25,
    category := "cat", imageUrl := "iA" }

theorem claim_c6_witness :
    ((handleSessionCompleted wenvSucc storeC6AB sessC6AB).purchases.map
        (fun r => (r.productId, r.price))
      = storeC6AB.purchases.map (fun r => (r.productId, r.price))
        ++ (parsedProductIds sessC6AB.metadata).filterMap
            (fun x => (catalogInfo storeC6AB.products
                (parsedProductIds sessC6AB.metadata) x).map
              (fun r => (x, r.price)))) ∧
    (handleSessionCompleted wenvSucc storeC6AB sessC6AB).purchases.map
        (fun r => (r.productId, r.price)) = [("A", 10), ("B", 25)] :=
  ⟨claim_c6_per_product_pricing.1 wenvSucc storeC6AB sessC6AB payC6 rfl rfl rfl
      rfl (by decide) (by decide) (by decide)
      (by
        intro x hx r hr
        have hp : parsedProductIds sessC6AB.metadata = ["A", "B"] := rfl
        rw [hp] at hx
        rcases List.mem_cons.mp hx with h | h
        · subst h
          have hA : catalogInfo storeC6AB.products
              (parsedProductIds sessC6AB.metadata) "A" = some infoA := by
            decide
          rw [hA] at hr
          injection hr with h2
          rw [← h2]
          decide
        · rcases List.mem_cons.mp h with h2 | h2
          · subst h2
            have hB : catalogInfo storeC6AB.products
                (parsedProductIds sessC6AB.metadata) "B" = some infoB := by
              decide
            rw [hB] at hr
            injection hr with h3
            rw [← h3]
            decide
          · simp at h2)
      (fun x hx => rfl),
    by decide⟩

end IIA
